import Mathlib

/-!
Verification of the signal detection and alert-dispatch engine of the
crypto_bot repository (src/signal_checker.py) against its natural-language
specification.  The detectors are embedded shallowly: prices, rates and
times are exact rationals, HTTP fetches become Option-valued inputs, the
module-level cooldown globals become explicit state records, and each
check_alert_* function becomes a pure Lean function from (inputs, state,
now) to (new state, optional event).  Message text, emoji and print
statements of the source are presentation only and are not modelled; the
inner PAXG / Fear-and-Greed fetches of check_alert_btc_level feed only the
message body and are likewise omitted.
-/

namespace CryptoBot

/-- One bar as consumed by the detectors: only the fields the signal logic
reads (close price and quote volume). -/
structure Bar where
  close : ℚ
  volumeto : ℚ
deriving DecidableEq

/-- Python negative indexing: xs[-k] is xs[len - k].  The source always
guards list lengths before indexing, so the default is never observable
in the modelled paths. -/
def pyIdx (xs : List Bar) (k : ℕ) : Bar :=
  xs.getD (xs.length - k) ⟨0, 0⟩

/-- Python truthiness fallback a if a else b for an optional float:
both None and 0.0 select the fallback. -/
def pyOrElse (v : Option ℚ) (fallback : ℚ) : ℚ :=
  match v with
  | none => fallback
  | some x => if x = 0 then fallback else x

/-- Python max over a list of rationals (lists are nonempty at use sites). -/
def listMax : List ℚ → ℚ
  | [] => 0
  | x :: xs => xs.foldl max x

/-- Python min over a list of rationals (lists are nonempty at use sites). -/
def listMin : List ℚ → ℚ
  | [] => 0
  | x :: xs => xs.foldl min x

-- ALERT SETTINGS (src/signal_checker.py lines 11-87)

def ALERT_ENABLED : Bool := true

def ALERT_ACCELERATION_ENABLED : Bool := true
def ALERT_ACCELERATION_PERIOD : ℕ := 30
def ALERT_ACCELERATION_MIN_DIFF : ℚ := 0.5
def ALERT_ACCELERATION_COOLDOWN : ℚ := 30

def ALERT_MOMENTUM_ENABLED : Bool := true
def ALERT_MOMENTUM_PERIOD : ℕ := 5
def ALERT_MOMENTUM_COUNT : ℕ := 4
def ALERT_MOMENTUM_MIN_CHANGE : ℚ := 0.2
def ALERT_MOMENTUM_COOLDOWN : ℚ := 60

def ALERT_SPIKE_ENABLED : Bool := true
def ALERT_SPIKE_PERIOD : ℕ := 5
def ALERT_SPIKE_THRESHOLD : ℚ := 0.6
def ALERT_SPIKE_COOLDOWN : ℚ := 120

def ALERT_GOLD_ENABLED : Bool := true
def ALERT_GOLD_COOLDOWN : ℚ := 180

def ALERT_ROTATION_ENABLED : Bool := true
def ALERT_ROTATION_THRESHOLD_MODERATE : ℚ := 2.5
def ALERT_ROTATION_COOLDOWN : ℚ := 600

def ALERT_BTC_LEVEL_ENABLED : Bool := true
def ALERT_BTC_ROUND_INCREMENT : ℚ := 2000
def ALERT_BTC_COOLDOWN : ℚ := 240

def ALERT_ETH_BTC_ENABLED : Bool := true
def ALERT_ETH_BTC_LEVELS : List ℚ := [0.035, 0.040, 0.045, 0.050, 0.055, 0.060]
def ALERT_ETH_BTC_DIVERGENCE_THRESHOLD : ℚ := 3.0
def ALERT_ETH_BTC_COOLDOWN : ℚ := 90
def ALERT_ETH_BTC_MIN_VOLUME : ℚ := -50

def ALERT_BTC_DOM_ENABLED : Bool := true
def ALERT_BTC_DOM_THRESHOLDS : List ℚ := [54.0, 56.0, 57.5, 58.5]
def ALERT_BTC_DOM_MOMENTUM_THRESHOLD : ℚ := 0.4
def ALERT_BTC_DOM_COOLDOWN : ℚ := 180

def ALERT_DERIVATIVES_ENABLED : Bool := true
def ALERT_DERIVATIVES_FUNDING_EXTREME : ℚ := 0.08
def ALERT_DERIVATIVES_FUNDING_VERY_EXTREME : ℚ := 0.10
def ALERT_DERIVATIVES_OI_HIGH : ℚ := 30
def ALERT_DERIVATIVES_OI_EXTREME : ℚ := 35
def ALERT_DERIVATIVES_COOLDOWN : ℚ := 360

/-- check_cooldown (signal_checker.py lines 260-267): passes when no
previous alert time is recorded, otherwise when at least
cooldown_minutes have elapsed since it.  Times are rational minutes. -/
def check_cooldown (last_time : Option ℚ) (cooldown_minutes now : ℚ) : Bool :=
  match last_time with
  | none => true
  | some t => decide (now - t ≥ cooldown_minutes)

/-- The inline cooldown gate of check_alert_btc_dominance (lines
1605-1611): the detector returns early exactly when a previous alert time
exists and fewer than ALERT_BTC_DOM_COOLDOWN minutes have passed. -/
def dom_cooldown_blocked (last_time : Option ℚ) (now : ℚ) : Bool :=
  match last_time with
  | none => false
  | some t => decide (now - t < ALERT_BTC_DOM_COOLDOWN)

/-- Quadrants of the composite derivatives classification
(check_alert_derivatives, lines 1844-1890).  The source has exactly four
outcomes: the three alerting conditions of the if/elif chain and the
silent fall-through; the caution case is split by funding sign. -/
inductive DerivQuadrant
  | danger
  | opportunity
  | cautionBullish
  | cautionBearish
  | healthy
deriving DecidableEq

/-- Composite two-metric classification from the if/elif chain of
check_alert_derivatives: funding_pct is the funding rate in percent,
oi_billions the open interest in billions of dollars. -/
def derivatives_classify (funding_pct oi_billions : ℚ) : DerivQuadrant :=
  if funding_pct ≥ ALERT_DERIVATIVES_FUNDING_EXTREME ∧
      oi_billions ≥ ALERT_DERIVATIVES_OI_HIGH then
    .danger
  else if funding_pct ≤ -ALERT_DERIVATIVES_FUNDING_EXTREME ∧
      oi_billions ≥ ALERT_DERIVATIVES_OI_HIGH then
    .opportunity
  else if |funding_pct| ≥ ALERT_DERIVATIVES_FUNDING_VERY_EXTREME then
    (if funding_pct > 0 then .cautionBullish else .cautionBearish)
  else
    .healthy

inductive Direction
  | up
  | down
deriving DecidableEq

/-- A dispatched signal event, tagged by the detector that produced it.
The rendered Telegram message is presentation and not modelled; the spike
event carries the computed change because the spec fixes its value. -/
inductive Event
  | acceleration (dir : Direction)
  | momentum (dir : Direction)
  | spike (dir : Direction) (change : ℚ)
  | gold
  | rotation
  | btcLevel (dir : Direction)
  | ethBtc
  | btcDom
  | derivatives (q : DerivQuadrant)
deriving DecidableEq

/-- Spike change (check_alert_spike lines 508-510): percentage change of
the current price against the close ALERT_SPIKE_PERIOD bars ago. -/
def spike_change (candles : List Bar) (btc_price : ℚ) : ℚ :=
  let price_ago := (pyIdx candles ALERT_SPIKE_PERIOD).close
  (btc_price - price_ago) / price_ago * 100

/-- check_alert_spike (lines 489-547): cooldown gate, data-length guard,
single-window percentage change against the threshold.  Returns the new
last-alert time and the optional event. -/
def check_alert_spike (candles : List Bar) (btc_price : ℚ)
    (last_time : Option ℚ) (now : ℚ) : Option ℚ × Option Event :=
  if !(ALERT_ENABLED && ALERT_SPIKE_ENABLED) then (last_time, none)
  else if !check_cooldown last_time ALERT_SPIKE_COOLDOWN now then (last_time, none)
  else if candles.length < ALERT_SPIKE_PERIOD then (last_time, none)
  else
    let change := spike_change candles btc_price
    if |change| ≥ ALERT_SPIKE_THRESHOLD then
      (some now, some (.spike (if change > 0 then .up else .down) change))
    else (last_time, none)

/-- check_alert_acceleration (lines 298-368): compares the percentage
change of two adjacent ALERT_ACCELERATION_PERIOD windows. -/
def check_alert_acceleration (candles : List Bar) (btc_price : ℚ)
    (last_time : Option ℚ) (now : ℚ) : Option ℚ × Option Event :=
  if !(ALERT_ENABLED && ALERT_ACCELERATION_ENABLED) then (last_time, none)
  else if !check_cooldown last_time ALERT_ACCELERATION_COOLDOWN now then (last_time, none)
  else if candles.length < ALERT_ACCELERATION_PERIOD * 2 then (last_time, none)
  else
    let price_2periods_ago := (pyIdx candles (ALERT_ACCELERATION_PERIOD * 2)).close
    let price_1period_ago := (pyIdx candles ALERT_ACCELERATION_PERIOD).close
    let period1_change := (price_1period_ago - price_2periods_ago) / price_2periods_ago * 100
    let period2_change := (btc_price - price_1period_ago) / price_1period_ago * 100
    if |period2_change| - |period1_change| ≥ ALERT_ACCELERATION_MIN_DIFF then
      (some now, some (.acceleration (if period2_change > 0 then .up else .down)))
    else (last_time, none)

/-- Per-block percentage change of check_alert_momentum (lines 396-404):
block i spans the i-th most recent P-bar stretch; block 0 ends at the
live price, block i > 0 at the close i*P bars ago. -/
def momentum_period_change (candles : List Bar) (btc_price : ℚ) (P i : ℕ) : ℚ :=
  let start_price := (pyIdx candles ((i + 1) * P)).close
  let end_price := if i = 0 then btc_price else (pyIdx candles (i * P)).close
  (end_price - start_price) / start_price * 100

/-- all_positive flag of the momentum loop: every block change strictly
positive. -/
def momentum_all_positive (candles : List Bar) (btc_price : ℚ) (P K : ℕ) : Bool :=
  (List.range K).all fun i => decide (0 < momentum_period_change candles btc_price P i)

/-- all_negative flag of the momentum loop: every block change strictly
negative. -/
def momentum_all_negative (candles : List Bar) (btc_price : ℚ) (P K : ℕ) : Bool :=
  (List.range K).all fun i => decide (momentum_period_change candles btc_price P i < 0)

/-- all_meet_threshold flag of the momentum loop: every block magnitude at
least min_change. -/
def momentum_all_meet (candles : List Bar) (btc_price : ℚ) (P K : ℕ) (min_change : ℚ) : Bool :=
  (List.range K).all fun i =>
    decide (min_change ≤ |momentum_period_change candles btc_price P i|)

inductive MomentumDirection
  | up
  | down
  | both
deriving DecidableEq

/-- should_trigger of check_alert_momentum (lines 419-434), for each
setting of ALERT_MOMENTUM_DIRECTION. -/
def momentum_should_trigger (candles : List Bar) (btc_price : ℚ) (P K : ℕ)
    (min_change : ℚ) (dir : MomentumDirection) : Bool :=
  let all_pos := momentum_all_positive candles btc_price P K
  let all_neg := momentum_all_negative candles btc_price P K
  let all_meet := momentum_all_meet candles btc_price P K min_change
  match dir with
  | .up => all_pos && all_meet
  | .down => all_neg && all_meet
  | .both => (all_pos && all_meet) || (all_neg && all_meet)

/-- check_alert_momentum (lines 370-487) at the shipped configuration
(K = 4 blocks of P = 5 minutes, min change 0.2, direction both). -/
def check_alert_momentum (candles : List Bar) (btc_price : ℚ)
    (last_time : Option ℚ) (now : ℚ) : Option ℚ × Option Event :=
  if !(ALERT_ENABLED && ALERT_MOMENTUM_ENABLED) then (last_time, none)
  else if !check_cooldown last_time ALERT_MOMENTUM_COOLDOWN now then (last_time, none)
  else if candles.length < ALERT_MOMENTUM_PERIOD * ALERT_MOMENTUM_COUNT then (last_time, none)
  else if momentum_should_trigger candles btc_price ALERT_MOMENTUM_PERIOD
      ALERT_MOMENTUM_COUNT ALERT_MOMENTUM_MIN_CHANGE .both then
    (some now,
     some (.momentum (if momentum_all_positive candles btc_price ALERT_MOMENTUM_PERIOD
        ALERT_MOMENTUM_COUNT then .up else .down)))
  else (last_time, none)

/-- Shared state of the three crossing detectors: the module-level pair
(last_alert_*_time, last_*_check value) of the source. -/
structure CrossState where
  last_time : Option ℚ
  last_price : Option ℚ
deriving DecidableEq

/-- floor(price / increment) * increment, the Python // based round level
of check_alert_gold (line 629) and check_alert_btc_level (line 1242). -/
def round_level (price increment : ℚ) : ℚ :=
  (⌊price / increment⌋ : ℤ) * increment

/-- The last 168 closes (candles[-168:] mapped to close), the 7-day window
of the gold, BTC-level and ETH/BTC detectors.  The current bar is part of
this slice. -/
def prices_7d (candles : List Bar) : List ℚ :=
  (candles.drop (candles.length - 168)).map (·.close)

/-- 7-day high: max over the last 168 closes, current bar included. -/
def high_7d (candles : List Bar) : ℚ :=
  listMax (prices_7d candles)

/-- 7-day low: min over the last 168 closes, current bar included. -/
def low_7d (candles : List Bar) : ℚ :=
  listMin (prices_7d candles)

/-- broke_high test shared by the gold, BTC-level and ETH/BTC detectors:
previous observation below the 7-day high and current value at or above
it (the high is computed over a window that contains the current bar). -/
def broke_high_7d (prev : ℚ) (candles : List Bar) (cur : ℚ) : Bool :=
  decide (prev < high_7d candles ∧ cur ≥ high_7d candles)

/-- broke_low test, symmetric to broke_high_7d. -/
def broke_low_7d (prev : ℚ) (candles : List Bar) (cur : ℚ) : Bool :=
  decide (prev > low_7d candles ∧ cur ≤ low_7d candles)

/-- Volume of the latest hourly bar against the 30-day hourly average, in
percent (lines 611-614, 1233-1236, 1019-1022 of the source). -/
def hourly_volume_vs_avg (candles : List Bar) : ℚ :=
  let current := (pyIdx candles 1).volumeto
  let total := (candles.map (·.volumeto)).sum
  let avg := total / (candles.length : ℚ)
  if avg > 0 then (current / avg - 1) * 100 else 0

/-- check_alert_gold (lines 549-811).  gold720 is the fetched 30-day PAXG
hourly window (none on fetch or format failure), btc24 the inner 24-hour
BTC fetch feeding the divergences (none leaves them at their 0 defaults).
A btc24 list shorter than 8 bars would raise an IndexError in the source
and abort the whole check with no state change, which the model
reproduces.  Fires on a 7-day extremum break, a crossed 50-dollar round
level, a multi-timeframe divergence or a volume spike, after the minimum
volume gate; the observed price is recorded before that gate. -/
def check_alert_gold (gold720 btc24 : Option (List Bar))
    (st : CrossState) (now : ℚ) : CrossState × Option Event :=
  if !(ALERT_ENABLED && ALERT_GOLD_ENABLED) then (st, none)
  else if !check_cooldown st.last_time ALERT_GOLD_COOLDOWN now then (st, none)
  else
    match gold720 with
    | none => (st, none)
    | some candles =>
      if candles.length < 168 then (st, none)
      else
        let gold_price := (pyIdx candles 1).close
        let gold_1h_change :=
          if 2 ≤ candles.length then
            (gold_price - (pyIdx candles 2).close) / (pyIdx candles 2).close * 100
          else 0
        let gold_4h_change :=
          (gold_price - (pyIdx candles 4).close) / (pyIdx candles 4).close * 100
        let gold_8h_change :=
          (gold_price - (pyIdx candles 8).close) / (pyIdx candles 8).close * 100
        let gold_24h_change :=
          (gold_price - (pyIdx candles 24).close) / (pyIdx candles 24).close * 100
        let volume_vs_avg := hourly_volume_vs_avg candles
        let prev_price := pyOrElse st.last_price (pyIdx candles 2).close
        let broke_high := broke_high_7d prev_price candles gold_price
        let broke_low := broke_low_7d prev_price candles gold_price
        let crossed_level := round_level gold_price 50 ≠ round_level prev_price 50
        let btcOk : Bool := match btc24 with
          | none => true
          | some cb => decide (8 ≤ cb.length)
        if !btcOk then (st, none)
        else
          let divs : ℚ × ℚ × ℚ × ℚ := match btc24 with
            | none => (0, 0, 0, 0)
            | some cb =>
              let btc_current := (pyIdx cb 1).close
              let btc_1h_change :=
                if 2 ≤ cb.length then
                  (btc_current - (pyIdx cb 2).close) / (pyIdx cb 2).close * 100
                else 0
              let btc_4h_change :=
                (btc_current - (pyIdx cb 4).close) / (pyIdx cb 4).close * 100
              let btc_8h_change :=
                (btc_current - (pyIdx cb 8).close) / (pyIdx cb 8).close * 100
              let btc_24h_change :=
                (btc_current - (cb.headD ⟨0, 0⟩).close) / (cb.headD ⟨0, 0⟩).close * 100
              (gold_1h_change - btc_1h_change, gold_4h_change - btc_4h_change,
               gold_8h_change - btc_8h_change, gold_24h_change - btc_24h_change)
          let short_term_divergence := |divs.1| > 1.0 ∨ |divs.2.1| > 2.0
          let medium_term_divergence := |divs.2.2.1| > 3.0
          let long_term_divergence := |divs.2.2.2| > 4.0
          let volume_spike := volume_vs_avg > 100
          let st1 : CrossState := ⟨st.last_time, some gold_price⟩
          if volume_vs_avg < -50 then (st1, none)
          else if broke_high ∨ broke_low ∨ crossed_level ∨ short_term_divergence ∨
              medium_term_divergence ∨ long_term_divergence ∨ volume_spike then
            (⟨some now, some gold_price⟩, some .gold)
          else (st1, none)

/-- check_alert_btc_level (lines 1175-1594).  btc720 is the fetched
30-day BTC hourly window.  Fires on a crossed 2000-dollar round level or
a 7-day extremum break, after the minimum volume gate; the observed price
is recorded before that gate.  The inner PAXG, RSI and Fear-and-Greed
computations feed only the message body and are omitted. -/
def check_alert_btc_level (btc720 : Option (List Bar))
    (st : CrossState) (now : ℚ) : CrossState × Option Event :=
  if !(ALERT_ENABLED && ALERT_BTC_LEVEL_ENABLED) then (st, none)
  else if !check_cooldown st.last_time ALERT_BTC_COOLDOWN now then (st, none)
  else
    match btc720 with
    | none => (st, none)
    | some candles =>
      if candles.length < 168 then (st, none)
      else
        let btc_price := (pyIdx candles 1).close
        let volume_vs_avg := hourly_volume_vs_avg candles
        let prev_price := pyOrElse st.last_price (pyIdx candles 2).close
        let crossed_round_level :=
          round_level btc_price ALERT_BTC_ROUND_INCREMENT ≠
            round_level prev_price ALERT_BTC_ROUND_INCREMENT
        let broke_high := broke_high_7d prev_price candles btc_price
        let broke_low := broke_low_7d prev_price candles btc_price
        let st1 : CrossState := ⟨st.last_time, some btc_price⟩
        if volume_vs_avg < -50 then (st1, none)
        else if crossed_round_level ∨ broke_high ∨ broke_low then
          (⟨some now, some btc_price⟩,
           some (.btcLevel
             (if broke_high then .up
              else if broke_low then .down
              else if btc_price > prev_price then .up else .down)))
        else (st1, none)

/-- Key-level search of check_alert_eth_btc (lines 1031-1035): the first
configured level that the previous and current observation straddle
(landing exactly on a level counts as a cross). -/
def eth_btc_crossed_level (prev cur : ℚ) : Option ℚ :=
  ALERT_ETH_BTC_LEVELS.find? fun level =>
    decide ((prev < level ∧ level ≤ cur) ∨ (prev > level ∧ level ≥ cur))

/-- check_alert_eth_btc (lines 941-1153).  ethBtc720 is the fetched
30-day ETH/BTC hourly window, ethUsd720 the ETH/USD volume window (a
failed volume fetch leaves the volume figure at its 0 default).  Fires on
a crossed key level, a 7-day extremum break or a strong 4-hour move,
after the minimum volume gate; the observed value is recorded before
that gate. -/
def check_alert_eth_btc (ethBtc720 ethUsd720 : Option (List Bar))
    (st : CrossState) (now : ℚ) : CrossState × Option Event :=
  if !(ALERT_ENABLED && ALERT_ETH_BTC_ENABLED) then (st, none)
  else if !check_cooldown st.last_time ALERT_ETH_BTC_COOLDOWN now then (st, none)
  else
    match ethBtc720 with
    | none => (st, none)
    | some candles =>
      if candles.length < 168 then (st, none)
      else
        let cur := (pyIdx candles 1).close
        let four_ago := (pyIdx candles 4).close
        let change_4h := (cur - four_ago) / four_ago * 100
        let eth_volume_vs_avg := match ethUsd720 with
          | none => 0
          | some cv => hourly_volume_vs_avg cv
        let prev := pyOrElse st.last_price (pyIdx candles 2).close
        let crossed := eth_btc_crossed_level prev cur
        let broke_high := broke_high_7d prev candles cur
        let broke_low := broke_low_7d prev candles cur
        let strong_divergence_4h := |change_4h| ≥ ALERT_ETH_BTC_DIVERGENCE_THRESHOLD
        let st1 : CrossState := ⟨st.last_time, some cur⟩
        if eth_volume_vs_avg < ALERT_ETH_BTC_MIN_VOLUME then (st1, none)
        else if crossed.isSome ∨ broke_high ∨ broke_low ∨ strong_divergence_4h then
          (⟨some now, some cur⟩, some .ethBtc)
        else (st1, none)

/-- check_alert_rotation (lines 813-939).  Inputs: the live BTC price,
the CoinGecko gold quote (price, 24h change) and the 24-hour BTC history;
fires when the 24-hour gold/BTC divergence reaches the moderate
threshold. -/
def check_alert_rotation (rotBtcPrice : Option ℚ) (rotGold : Option (ℚ × ℚ))
    (rotBtcHist : Option (List Bar)) (last_time : Option ℚ) (now : ℚ) :
    Option ℚ × Option Event :=
  if !(ALERT_ENABLED && ALERT_ROTATION_ENABLED) then (last_time, none)
  else if !check_cooldown last_time ALERT_ROTATION_COOLDOWN now then (last_time, none)
  else
    match rotBtcPrice, rotGold with
    | some btc_price, some goldq =>
      if goldq.1 = 0 ∨ btc_price = 0 then (last_time, none)
      else
        match rotBtcHist with
        | none => (last_time, none)
        | some candles =>
          let btc_24h_ago := (candles.headD ⟨0, 0⟩).close
          let btc_24h_change := (btc_price - btc_24h_ago) / btc_24h_ago * 100
          let divergence := goldq.2 - btc_24h_change
          if |divergence| ≥ ALERT_ROTATION_THRESHOLD_MODERATE then
            (some now, some .rotation)
          else (last_time, none)
    | _, _ => (last_time, none)

/-- State of the dominance detector: last alert time and the value of the
previous check (module globals last_alert_btc_dom_time,
last_btc_dom_check). -/
structure DomState where
  last_time : Option ℚ
  last_check : Option ℚ
deriving DecidableEq

/-- Dominance level zones of check_alert_btc_dominance (lines 1666-1685),
ordered by the threshold ladder. -/
inductive DomZone
  | reverse
  | altBuy
  | prepareAlts
  | prepareBtc
  | sellAlts
deriving DecidableEq

def dom_level_zone (current_dom : ℚ) : DomZone :=
  if current_dom < 54 then .reverse
  else if current_dom < 56 then .altBuy
  else if current_dom < 57.5 then .prepareAlts
  else if current_dom < 58.5 then .prepareBtc
  else .sellAlts

inductive DomMomentum
  | stable
  | rising
  | falling
deriving DecidableEq

/-- check_alert_btc_dominance (lines 1596-1771).  globalDom is the
fetched dominance percentage (none on failure; the source also returns
early on a Python-falsy 0 value), domBtcHist the 7-day BTC history used
for the proxy momentum estimate.  The source rounds the fetched values to
two decimals for display; rounding is omitted as no firing condition
depends on it.  Fires on a threshold crossing against the previous
check, a momentum shift, or an edge condition; the previous-check value
is refreshed at the end of every completed run. -/
def check_alert_btc_dominance (globalDom : Option ℚ) (domBtcHist : Option (List Bar))
    (st : DomState) (now : ℚ) : DomState × Option Event :=
  if !(ALERT_ENABLED && ALERT_BTC_DOM_ENABLED) then (st, none)
  else if dom_cooldown_blocked st.last_time now then (st, none)
  else
    match globalDom with
    | none => (st, none)
    | some d =>
      if d = 0 then (st, none)
      else
        let current_dom := d
        let dom_24h_ago : Option ℚ := match domBtcHist with
          | none => none
          | some candles =>
            let btc_now := (pyIdx candles 1).close
            let btc_24h := (pyIdx candles 24).close
            let price_change_24h := (btc_now - btc_24h) / btc_24h * 100
            some (current_dom - price_change_24h * 0.3)
        let zone := dom_level_zone current_dom
        let momentum : DomMomentum := match dom_24h_ago with
          | none => .stable
          | some prev =>
            if prev = 0 then .stable
            else if |current_dom - prev| ≥ ALERT_BTC_DOM_MOMENTUM_THRESHOLD then
              (if current_dom - prev > 0 then .rising else .falling)
            else .stable
        let crossed : Bool := match st.last_check with
          | none => false
          | some lastd =>
            if lastd = 0 then false
            else ALERT_BTC_DOM_THRESHOLDS.any fun t =>
              decide ((lastd < t ∧ t ≤ current_dom) ∨ (lastd > t ∧ t ≥ current_dom))
        let momentum_shift : Bool := match dom_24h_ago with
          | none => false
          | some prev =>
            if prev = 0 then false
            else decide (|current_dom - prev| ≥ ALERT_BTC_DOM_MOMENTUM_THRESHOLD)
        let edge : Bool :=
          decide (((zone = .sellAlts ∨ zone = .prepareBtc) ∧ momentum = .falling) ∨
            ((zone = .altBuy ∨ zone = .prepareAlts) ∧ momentum = .rising))
        if crossed || momentum_shift || edge then
          (⟨some now, some current_dom⟩, some .btcDom)
        else
          (⟨st.last_time, some current_dom⟩, none)

/-- check_alert_derivatives (lines 1773-1936).  funding is the fetched
lastFundingRate (a raw fraction, converted to percent), oiContracts the
open-interest contract count, derivPrice the BTC price with its 100000
fallback.  Fires exactly on the non-healthy quadrants of the composite
classification. -/
def check_alert_derivatives (funding oiContracts derivPrice : Option ℚ)
    (last_time : Option ℚ) (now : ℚ) : Option ℚ × Option Event :=
  if !(ALERT_ENABLED && ALERT_DERIVATIVES_ENABLED) then (last_time, none)
  else if !check_cooldown last_time ALERT_DERIVATIVES_COOLDOWN now then (last_time, none)
  else
    match funding with
    | none => (last_time, none)
    | some rate =>
      let funding_pct := rate * 100
      match oiContracts with
      | none => (last_time, none)
      | some oi =>
        let btc_price := derivPrice.getD 100000
        let oi_billions := oi * btc_price / 1000000000
        let q := derivatives_classify funding_pct oi_billions
        if q ≠ .healthy then (some now, some (.derivatives q))
        else (last_time, none)

/-- All upstream inputs of one evaluation cycle, each fetch modelled as an
Option (none covers HTTP failure and malformed payloads alike). -/
structure SignalEnv where
  now : ℚ
  btcMinute : Option (ℚ × List Bar)
  gold720 : Option (List Bar)
  goldBtc24 : Option (List Bar)
  rotBtcPrice : Option ℚ
  rotGold : Option (ℚ × ℚ)
  rotBtcHist : Option (List Bar)
  btc720 : Option (List Bar)
  ethBtc720 : Option (List Bar)
  ethUsd720 : Option (List Bar)
  globalDom : Option ℚ
  domBtcHist : Option (List Bar)
  funding : Option ℚ
  oiContracts : Option ℚ
  derivPrice : Option ℚ

/-- The module-level cooldown globals of signal_checker.py, gathered into
one record. -/
structure SignalState where
  acceleration_time : Option ℚ
  momentum_time : Option ℚ
  spike_time : Option ℚ
  gold : CrossState
  rotation_time : Option ℚ
  btc_level : CrossState
  eth_btc : CrossState
  dom : DomState
  derivatives_time : Option ℚ
deriving DecidableEq

/-- The process-start state: every global is None. -/
def initialState : SignalState :=
  ⟨none, none, none, ⟨none, none⟩, none, ⟨none, none⟩, ⟨none, none⟩, ⟨none, none⟩, none⟩

/-- check_all_signals (lines 1938-1984): fetches the BTC minute data and,
when that fetch fails or returns fewer than 130 bars, returns without
invoking ANY detector; otherwise it invokes all nine detectors in order
and collects their events. -/
def check_all_signals (env : SignalEnv) (st : SignalState) : SignalState × List Event :=
  match env.btcMinute with
  | none => (st, [])
  | some pc =>
    if pc.2.length < 130 then (st, [])
    else
      let r1 := check_alert_acceleration pc.2 pc.1 st.acceleration_time env.now
      let r2 := check_alert_momentum pc.2 pc.1 st.momentum_time env.now
      let r3 := check_alert_spike pc.2 pc.1 st.spike_time env.now
      let r4 := check_alert_gold env.gold720 env.goldBtc24 st.gold env.now
      let r5 := check_alert_rotation env.rotBtcPrice env.rotGold env.rotBtcHist
        st.rotation_time env.now
      let r6 := check_alert_btc_level env.btc720 st.btc_level env.now
      let r7 := check_alert_eth_btc env.ethBtc720 env.ethUsd720 st.eth_btc env.now
      let r8 := check_alert_btc_dominance env.globalDom env.domBtcHist st.dom env.now
      let r9 := check_alert_derivatives env.funding env.oiContracts env.derivPrice
        st.derivatives_time env.now
      (⟨r1.1, r2.1, r3.1, r4.1, r5.1, r6.1, r7.1, r8.1, r9.1⟩,
       [r1.2, r2.2, r3.2, r4.2, r5.2, r6.2, r7.2, r8.2, r9.2].filterMap id)

/-- Inputs of one invocation in a sequence of spike checks. -/
structure SpikeTick where
  now : ℚ
  data : List Bar
  price : ℚ

/-- Repeated invocation of check_alert_spike, threading the module-level
last-alert time and collecting the emitted events in order. -/
def run_spike (last : Option ℚ) : List SpikeTick → Option ℚ × List Event
  | [] => (last, [])
  | t :: rest =>
    let r := check_alert_spike t.data t.price last t.now
    let rr := run_spike r.1 rest
    (rr.1, r.2.toList ++ rr.2)

/-- Inputs of one invocation in a sequence of ETH/BTC checks. -/
structure EthBtcTick where
  now : ℚ
  data : List Bar
  ethUsd : Option (List Bar)

/-- Repeated invocation of check_alert_eth_btc, threading the state and
collecting the emitted events in order. -/
def run_eth_btc (st : CrossState) : List EthBtcTick → CrossState × List Event
  | [] => (st, [])
  | t :: rest =>
    let r := check_alert_eth_btc (some t.data) t.ethUsd st t.now
    let rr := run_eth_btc r.1 rest
    (rr.1, r.2.toList ++ rr.2)

/-- Inputs of one invocation in a sequence of BTC-level checks. -/
structure LevelTick where
  now : ℚ
  data : List Bar

/-- Repeated invocation of check_alert_btc_level. -/
def run_btc_level (st : CrossState) : List LevelTick → CrossState × List Event
  | [] => (st, [])
  | t :: rest =>
    let r := check_alert_btc_level (some t.data) st t.now
    let rr := run_btc_level r.1 rest
    (rr.1, r.2.toList ++ rr.2)

/-- Inputs of one invocation in a sequence of gold checks. -/
structure GoldTick where
  now : ℚ
  data : List Bar
  btc24 : Option (List Bar)

/-- Repeated invocation of check_alert_gold. -/
def run_gold (st : CrossState) : List GoldTick → CrossState × List Event
  | [] => (st, [])
  | t :: rest =>
    let r := check_alert_gold (some t.data) t.btc24 st t.now
    let rr := run_gold r.1 rest
    (rr.1, r.2.toList ++ rr.2)

-- Concrete inputs used by counterexamples and witnesses.

/-- The six-bar close series of the spec's spike scenario. -/
def spikeBars : List Bar :=
  [⟨100, 1⟩, ⟨100.1, 1⟩, ⟨100.2, 1⟩, ⟨100.3, 1⟩, ⟨100.4, 1⟩, ⟨101, 1⟩]

/-- A minimal qualifying spike input: five flat bars, live price one
percent above the close five bars ago. -/
def qcandles : List Bar := List.replicate 5 ⟨100, 1⟩

/-- Two bars driving the momentum witness at K = 2 blocks of P = 1. -/
def momentumBars : List Bar := [⟨100, 1⟩, ⟨101, 1⟩]

/-- A cycle environment whose BTC minute fetch failed while the
derivatives inputs sit in the danger quadrant (funding 0.1 percent, open
interest 40 billion dollars); every other fetch also fails. -/
def envBtcDown : SignalEnv :=
  ⟨0, none, none, none, none, none, none, none, none, none, none, none,
   some 0.001, some 400000, some 100000⟩

/-- A cycle environment with healthy BTC minute data (130 flat bars) in
which the gold, rotation, BTC-level, ETH/BTC and dominance fetches all
fail while the derivatives inputs sit in the danger quadrant. -/
def envGoldDown : SignalEnv :=
  ⟨0, some (100000, List.replicate 130 ⟨100000, 1⟩), none, none, none, none, none,
   none, none, none, none, none, some 0.001, some 400000, some 100000⟩

/-- A synthetic 168-bar hourly window with unit volumes: one high bar,
one low bar, a long flat stretch at a, then closes b and cur.  Indices
read by the detectors: [-1] = cur, [-2] = b, [-4] = [-8] = [-24] = a. -/
def mkWindow (hi lo a b cur : ℚ) : List Bar :=
  ⟨hi, 1⟩ :: ⟨lo, 1⟩ :: (List.replicate 164 ⟨a, 1⟩ ++ [⟨b, 1⟩, ⟨cur, 1⟩])

/-- A strictly increasing 168-bar window with unit volumes: bar i closes
at 100 + (s + i)/10.  Feeding monoWindow 0 then monoWindow 1 models two
consecutive evaluations over a monotonically increasing series of 169
bars. -/
def monoWindow (s : ℕ) : List Bar :=
  (List.range 168).map fun i => ⟨100 + ((s + i : ℕ) : ℚ) / 10, 1⟩

/-- An ETH/BTC tick on which none of the detector's non-crossing trigger
conditions can hold: enough bars, a strictly higher and a strictly lower
close elsewhere in the 7-day window (so no extremum break), a 4-hour
change below the divergence threshold, and a nonzero close (so the
recorded observation is not treated as Python-falsy). -/
def EthNeutralTick (t : EthBtcTick) : Prop :=
  168 ≤ t.data.length ∧
  (∃ c ∈ prices_7d t.data, (pyIdx t.data 1).close < c) ∧
  (∃ c ∈ prices_7d t.data, c < (pyIdx t.data 1).close) ∧
  |((pyIdx t.data 1).close - (pyIdx t.data 4).close) / (pyIdx t.data 4).close * 100| <
    ALERT_ETH_BTC_DIVERGENCE_THRESHOLD ∧
  (pyIdx t.data 1).close ≠ 0

/-- A BTC-level tick on which neither 7-day extremum break can hold and
whose close is nonzero. -/
def BtcNeutralTick (t : LevelTick) : Prop :=
  168 ≤ t.data.length ∧
  (∃ c ∈ prices_7d t.data, (pyIdx t.data 1).close < c) ∧
  (∃ c ∈ prices_7d t.data, c < (pyIdx t.data 1).close) ∧
  (pyIdx t.data 1).close ≠ 0

/-- A gold tick on which none of the non-crossing trigger conditions can
hold: enough bars, no extremum break, volume not in spike territory, the
inner BTC fetch failed (divergences stay at their 0 defaults), and a
nonzero close. -/
def GoldNeutralTick (t : GoldTick) : Prop :=
  168 ≤ t.data.length ∧
  (∃ c ∈ prices_7d t.data, (pyIdx t.data 1).close < c) ∧
  (∃ c ∈ prices_7d t.data, c < (pyIdx t.data 1).close) ∧
  ¬ hourly_volume_vs_avg t.data > 100 ∧
  t.btc24 = none ∧
  (pyIdx t.data 1).close ≠ 0

/-- The sequence of observed closes of a list of ETH/BTC ticks. -/
def ethValues (ticks : List EthBtcTick) : List ℚ :=
  ticks.map fun t => (pyIdx t.data 1).close

/-- The sequence of observed closes of a list of BTC-level ticks. -/
def btcValues (ticks : List LevelTick) : List ℚ :=
  ticks.map fun t => (pyIdx t.data 1).close

/-- The sequence of observed closes of a list of gold ticks. -/
def goldValues (ticks : List GoldTick) : List ℚ :=
  ticks.map fun t => (pyIdx t.data 1).close

-- Theorems.  General helper lemmas come first, then one theorem (plus
-- counterexample and witness where applicable) per claim.

theorem foldl_max_init_le (l : List ℚ) (a : ℚ) : a ≤ l.foldl max a := by
  induction l generalizing a with
  | nil => simp
  | cons x xs ih => exact le_trans (le_max_left a x) (ih (max a x))

theorem foldl_max_of_mem {l : List ℚ} {x : ℚ} (h : x ∈ l) (a : ℚ) :
    x ≤ l.foldl max a := by
  induction l generalizing a with
  | nil => cases h
  | cons y ys ih =>
    rw [List.foldl_cons]
    rcases List.mem_cons.mp h with rfl | h2
    · exact le_trans (le_max_right a x) (foldl_max_init_le ys (max a x))
    · exact ih h2 (max a y)

theorem foldl_max_mem (l : List ℚ) (a : ℚ) :
    l.foldl max a = a ∨ l.foldl max a ∈ l := by
  induction l generalizing a with
  | nil => exact Or.inl rfl
  | cons x xs ih =>
    rcases ih (max a x) with h | h
    · rcases max_choice a x with hm | hm
      · exact Or.inl (by rw [List.foldl_cons, h, hm])
      · exact Or.inr (by rw [List.foldl_cons, h, hm]; exact List.mem_cons_self x xs)
    · exact Or.inr (List.mem_cons_of_mem x h)

theorem le_listMax {l : List ℚ} {x : ℚ} (h : x ∈ l) : x ≤ listMax l := by
  cases l with
  | nil => cases h
  | cons y ys =>
    rw [listMax]
    rcases List.mem_cons.mp h with rfl | h2
    · exact foldl_max_init_le ys x
    · exact foldl_max_of_mem h2 y

theorem listMax_mem {l : List ℚ} (h : l ≠ []) : listMax l ∈ l := by
  cases l with
  | nil => exact absurd rfl h
  | cons y ys =>
    rw [listMax]
    rcases foldl_max_mem ys y with h2 | h2
    · rw [h2]; exact List.mem_cons_self y ys
    · exact List.mem_cons_of_mem y h2

theorem foldl_min_le_init (l : List ℚ) (a : ℚ) : l.foldl min a ≤ a := by
  induction l generalizing a with
  | nil => simp
  | cons x xs ih => exact le_trans (ih (min a x)) (min_le_left a x)

theorem foldl_min_of_mem {l : List ℚ} {x : ℚ} (h : x ∈ l) (a : ℚ) :
    l.foldl min a ≤ x := by
  induction l generalizing a with
  | nil => cases h
  | cons y ys ih =>
    rw [List.foldl_cons]
    rcases List.mem_cons.mp h with rfl | h2
    · exact le_trans (foldl_min_le_init ys (min a x)) (min_le_right a x)
    · exact ih h2 (min a y)

theorem foldl_min_mem (l : List ℚ) (a : ℚ) :
    l.foldl min a = a ∨ l.foldl min a ∈ l := by
  induction l generalizing a with
  | nil => exact Or.inl rfl
  | cons x xs ih =>
    rcases ih (min a x) with h | h
    · rcases min_choice a x with hm | hm
      · exact Or.inl (by rw [List.foldl_cons, h, hm])
      · exact Or.inr (by rw [List.foldl_cons, h, hm]; exact List.mem_cons_self x xs)
    · exact Or.inr (List.mem_cons_of_mem x h)

theorem listMin_le {l : List ℚ} {x : ℚ} (h : x ∈ l) : listMin l ≤ x := by
  cases l with
  | nil => cases h
  | cons y ys =>
    rw [listMin]
    rcases List.mem_cons.mp h with rfl | h2
    · exact foldl_min_le_init ys x
    · exact foldl_min_of_mem h2 y

theorem listMin_mem {l : List ℚ} (h : l ≠ []) : listMin l ∈ l := by
  cases l with
  | nil => exact absurd rfl h
  | cons y ys =>
    rw [listMin]
    rcases foldl_min_mem ys y with h2 | h2
    · rw [h2]; exact List.mem_cons_self y ys
    · exact List.mem_cons_of_mem y h2

theorem getD_replicate_bar {x d : Bar} {n i : ℕ} (h : i < n) :
    (List.replicate n x).getD i d = x := by
  induction n generalizing i with
  | zero => omega
  | succ m ih =>
    cases i with
    | zero => simp [List.replicate_succ]
    | succ j =>
      rw [List.replicate_succ, List.getD_cons_succ]
      exact ih (by omega)

theorem getD_append_left_bar {l1 l2 : List Bar} {i : ℕ} (h : i < l1.length) (d : Bar) :
    (l1 ++ l2).getD i d = l1.getD i d := by
  rw [List.getD, List.getD, List.get?_eq_getElem?, List.get?_eq_getElem?,
    List.getElem?_append_left h]

theorem pyIdx_reverse (l : List Bar) (k : ℕ) (h1 : 1 ≤ k) (h2 : k ≤ l.length) :
    pyIdx l k = l.reverse.getD (k - 1) ⟨0, 0⟩ := by
  rw [pyIdx, List.getD, List.getD, List.get?_eq_getElem?, List.get?_eq_getElem?,
    List.getElem?_reverse (by omega)]
  congr 2
  omega

theorem mkWindow_length (hi lo a b cur : ℚ) : (mkWindow hi lo a b cur).length = 168 := by
  rw [mkWindow]
  simp only [List.length_cons, List.length_append, List.length_replicate]
  rfl

theorem mkWindow_reverse (hi lo a b cur : ℚ) :
    (mkWindow hi lo a b cur).reverse =
      ⟨cur, 1⟩ :: ⟨b, 1⟩ :: (List.replicate 164 ⟨a, 1⟩ ++ [⟨lo, 1⟩, ⟨hi, 1⟩]) := by
  rw [mkWindow]
  simp only [List.reverse_cons, List.reverse_append, List.reverse_replicate]
  simp [List.append_assoc]

theorem mkWindow_pyIdx_one (hi lo a b cur : ℚ) :
    pyIdx (mkWindow hi lo a b cur) 1 = ⟨cur, 1⟩ := by
  rw [pyIdx_reverse _ 1 le_rfl (by rw [mkWindow_length]; omega), mkWindow_reverse]
  rfl

theorem mkWindow_pyIdx_two (hi lo a b cur : ℚ) :
    pyIdx (mkWindow hi lo a b cur) 2 = ⟨b, 1⟩ := by
  rw [pyIdx_reverse _ 2 (by omega) (by rw [mkWindow_length]; omega), mkWindow_reverse]
  rfl

theorem mkWindow_pyIdx_mid (hi lo a b cur : ℚ) (k : ℕ) (h3 : 3 ≤ k) (h4 : k ≤ 166) :
    pyIdx (mkWindow hi lo a b cur) k = ⟨a, 1⟩ := by
  rw [pyIdx_reverse _ k (by omega) (by rw [mkWindow_length]; omega), mkWindow_reverse]
  obtain ⟨j, rfl⟩ : ∃ j, k = j + 3 := ⟨k - 3, by omega⟩
  have hidx : j + 3 - 1 = j + 1 + 1 := by omega
  rw [hidx, List.getD_cons_succ, List.getD_cons_succ,
    getD_append_left_bar (by rw [List.length_replicate]; omega)]
  exact getD_replicate_bar (by omega)

theorem mkWindow_prices (hi lo a b cur : ℚ) :
    prices_7d (mkWindow hi lo a b cur) = hi :: lo :: (List.replicate 164 a ++ [b, cur]) := by
  rw [prices_7d, mkWindow_length]
  have h0 : 168 - 168 = 0 := rfl
  rw [h0, List.drop_zero, mkWindow]
  simp only [List.map_cons, List.map_append, List.map_replicate, List.map_nil]

theorem mkWindow_volume (hi lo a b cur : ℚ) :
    hourly_volume_vs_avg (mkWindow hi lo a b cur) = 0 := by
  simp only [hourly_volume_vs_avg, mkWindow_pyIdx_one, mkWindow_length]
  rw [mkWindow]
  simp only [List.map_cons, List.map_append, List.map_replicate, List.sum_cons,
    List.sum_append, List.sum_replicate]
  norm_num

theorem pyIdx_getElem (w : List Bar) (k : ℕ) (h1 : 1 ≤ k) (h2 : k ≤ w.length) :
    w[w.length - k]? = some (pyIdx w k) := by
  rw [List.getElem?_eq_getElem (by omega), pyIdx, List.getD, List.get?_eq_getElem?,
    List.getElem?_eq_getElem (by omega)]
  rfl

theorem pyIdx_one_mem_prices (w : List Bar) (h : 168 ≤ w.length) :
    (pyIdx w 1).close ∈ prices_7d w := by
  rw [prices_7d]
  apply List.mem_map_of_mem
  have hsome : (w.drop (w.length - 168))[167]? = some (pyIdx w 1) := by
    rw [List.getElem?_drop]
    have harith : w.length - 168 + 167 = w.length - 1 := by omega
    rw [harith]
    exact pyIdx_getElem w 1 le_rfl (by omega)
  exact List.getElem?_mem hsome

theorem volume_vs_avg_const (w : List Bar) (hw : w.length ≠ 0)
    (h2 : ∀ bar ∈ w, bar.volumeto = 1) : hourly_volume_vs_avg w = 0 := by
  have hcur : (pyIdx w 1).volumeto = 1 :=
    h2 _ (List.getElem?_mem (pyIdx_getElem w 1 le_rfl (by omega)))
  have hmap : w.map (·.volumeto) = List.replicate w.length 1 := by
    rw [List.eq_replicate_iff]
    refine ⟨by simp, ?_⟩
    intro b hb
    obtain ⟨bar, hbar, rfl⟩ := List.mem_map.mp hb
    exact h2 bar hbar
  have hlen : ((w.length : ℚ)) ≠ 0 := by
    exact_mod_cast hw
  rw [hourly_volume_vs_avg]
  simp only [hcur, hmap, List.sum_replicate, nsmul_eq_mul, mul_one]
  rw [div_self hlen]
  norm_num

theorem listMax_eq_of_mem_of_le {l : List ℚ} {b : ℚ} (hmem : b ∈ l)
    (hle : ∀ c ∈ l, c ≤ b) : listMax l = b :=
  le_antisymm (hle _ (listMax_mem (List.ne_nil_of_mem hmem))) (le_listMax hmem)

theorem eth_btc_skip_cooldown (d du : Option (List Bar)) (st : CrossState) (now : ℚ)
    (hcd : check_cooldown st.last_time ALERT_ETH_BTC_COOLDOWN now = false) :
    check_alert_eth_btc d du st now = (st, none) := by
  rw [check_alert_eth_btc.eq_def]
  simp [hcd, ALERT_ENABLED, ALERT_ETH_BTC_ENABLED]

theorem broke_high_false (prev : ℚ) (w : List Bar) (cur : ℚ)
    (hH : ∃ c ∈ prices_7d w, cur < c) :
    broke_high_7d prev w cur = false := by
  obtain ⟨c, hc, hlt⟩ := hH
  rw [broke_high_7d, decide_eq_false_iff_not]
  rintro ⟨-, hge⟩
  have h1 : c ≤ high_7d w := le_listMax hc
  have h2 : high_7d w ≤ cur := hge
  linarith

theorem broke_low_false (prev : ℚ) (w : List Bar) (cur : ℚ)
    (hL : ∃ c ∈ prices_7d w, c < cur) :
    broke_low_7d prev w cur = false := by
  obtain ⟨c, hc, hlt⟩ := hL
  rw [broke_low_7d, decide_eq_false_iff_not]
  rintro ⟨-, hle⟩
  have h1 : low_7d w ≤ c := listMin_le hc
  have h2 : cur ≤ low_7d w := hle
  linarith

theorem eth_btc_no_fire (w : List Bar) (du : Option (List Bar)) (st : CrossState) (now : ℚ)
    (hcd : check_cooldown st.last_time ALERT_ETH_BTC_COOLDOWN now = true)
    (hlen : ¬ w.length < 168)
    (hcross : eth_btc_crossed_level (pyOrElse st.last_price ((pyIdx w 2).close))
      ((pyIdx w 1).close) = none)
    (hH : ∃ c ∈ prices_7d w, (pyIdx w 1).close < c)
    (hL : ∃ c ∈ prices_7d w, c < (pyIdx w 1).close)
    (hdiv : |((pyIdx w 1).close - (pyIdx w 4).close) / (pyIdx w 4).close * 100| <
      ALERT_ETH_BTC_DIVERGENCE_THRESHOLD) :
    check_alert_eth_btc (some w) du st now =
      (⟨st.last_time, some ((pyIdx w 1).close)⟩, none) := by
  have hbh := broke_high_false (pyOrElse st.last_price ((pyIdx w 2).close)) w
    ((pyIdx w 1).close) hH
  have hbl := broke_low_false (pyOrElse st.last_price ((pyIdx w 2).close)) w
    ((pyIdx w 1).close) hL
  rw [check_alert_eth_btc.eq_def]
  simp only [ALERT_ENABLED, ALERT_ETH_BTC_ENABLED, Bool.and_self, Bool.not_true,
    Bool.false_eq_true, if_false, hcd, hlen, hcross, hbh, hbl, Option.isSome_none]
  split_ifs with h1 h2
  · rfl
  · simp only [false_or] at h2
    exact absurd h2 (not_le.mpr hdiv)
  · rfl

theorem eth_btc_fire_cross (w : List Bar) (st : CrossState) (now : ℚ)
    (hcd : check_cooldown st.last_time ALERT_ETH_BTC_COOLDOWN now = true)
    (hlen : ¬ w.length < 168)
    (hcross : (eth_btc_crossed_level (pyOrElse st.last_price ((pyIdx w 2).close))
      ((pyIdx w 1).close)).isSome = true) :
    check_alert_eth_btc (some w) none st now =
      (⟨some now, some ((pyIdx w 1).close)⟩, some .ethBtc) := by
  rw [check_alert_eth_btc.eq_def]
  simp only [ALERT_ENABLED, ALERT_ETH_BTC_ENABLED, Bool.and_self, Bool.not_true,
    Bool.false_eq_true, if_false, hcd, hlen, hcross, ALERT_ETH_BTC_MIN_VOLUME]
  rw [if_neg (by norm_num), if_pos (Or.inl trivial)]

theorem btc_level_skip_cooldown (d : Option (List Bar)) (st : CrossState) (now : ℚ)
    (hcd : check_cooldown st.last_time ALERT_BTC_COOLDOWN now = false) :
    check_alert_btc_level d st now = (st, none) := by
  rw [check_alert_btc_level.eq_def]
  simp [hcd, ALERT_ENABLED, ALERT_BTC_LEVEL_ENABLED]

theorem btc_level_no_fire (w : List Bar) (st : CrossState) (now : ℚ)
    (hcd : check_cooldown st.last_time ALERT_BTC_COOLDOWN now = true)
    (hlen : ¬ w.length < 168)
    (hcross : round_level ((pyIdx w 1).close) ALERT_BTC_ROUND_INCREMENT =
      round_level (pyOrElse st.last_price ((pyIdx w 2).close)) ALERT_BTC_ROUND_INCREMENT)
    (hH : ∃ c ∈ prices_7d w, (pyIdx w 1).close < c)
    (hL : ∃ c ∈ prices_7d w, c < (pyIdx w 1).close) :
    check_alert_btc_level (some w) st now =
      (⟨st.last_time, some ((pyIdx w 1).close)⟩, none) := by
  have hbh := broke_high_false (pyOrElse st.last_price ((pyIdx w 2).close)) w
    ((pyIdx w 1).close) hH
  have hbl := broke_low_false (pyOrElse st.last_price ((pyIdx w 2).close)) w
    ((pyIdx w 1).close) hL
  rw [check_alert_btc_level.eq_def]
  simp only [ALERT_ENABLED, ALERT_BTC_LEVEL_ENABLED, Bool.and_self, Bool.not_true,
    Bool.false_eq_true, if_false, hcd, hlen, hcross, hbh, hbl]
  rcases lt_or_le (hourly_volume_vs_avg w) (-50 : ℚ) with hv | hv
  · rw [if_pos hv]
  · rw [if_neg (not_lt.mpr hv), if_neg (by simp)]

theorem btc_level_fire_cross (w : List Bar) (st : CrossState) (now : ℚ)
    (hcd : check_cooldown st.last_time ALERT_BTC_COOLDOWN now = true)
    (hlen : ¬ w.length < 168)
    (hcross : round_level ((pyIdx w 1).close) ALERT_BTC_ROUND_INCREMENT ≠
      round_level (pyOrElse st.last_price ((pyIdx w 2).close)) ALERT_BTC_ROUND_INCREMENT)
    (hH : ∃ c ∈ prices_7d w, (pyIdx w 1).close < c)
    (hL : ∃ c ∈ prices_7d w, c < (pyIdx w 1).close)
    (hvol : ¬ hourly_volume_vs_avg w < -50) :
    check_alert_btc_level (some w) st now =
      (⟨some now, some ((pyIdx w 1).close)⟩,
       some (.btcLevel
         (if (pyIdx w 1).close > pyOrElse st.last_price ((pyIdx w 2).close) then .up
          else .down))) := by
  have hbh := broke_high_false (pyOrElse st.last_price ((pyIdx w 2).close)) w
    ((pyIdx w 1).close) hH
  have hbl := broke_low_false (pyOrElse st.last_price ((pyIdx w 2).close)) w
    ((pyIdx w 1).close) hL
  rw [check_alert_btc_level.eq_def]
  simp only [ALERT_ENABLED, ALERT_BTC_LEVEL_ENABLED, Bool.and_self, Bool.not_true,
    Bool.false_eq_true, if_false, hcd, hlen, hbh, hbl]
  rw [if_neg hvol, if_pos (Or.inl hcross)]

theorem gold_skip_cooldown (d db : Option (List Bar)) (st : CrossState) (now : ℚ)
    (hcd : check_cooldown st.last_time ALERT_GOLD_COOLDOWN now = false) :
    check_alert_gold d db st now = (st, none) := by
  rw [check_alert_gold.eq_def]
  simp [hcd, ALERT_ENABLED, ALERT_GOLD_ENABLED]

theorem gold_no_fire (w : List Bar) (st : CrossState) (now : ℚ)
    (hcd : check_cooldown st.last_time ALERT_GOLD_COOLDOWN now = true)
    (hlen : ¬ w.length < 168)
    (hcross : round_level ((pyIdx w 1).close) 50 =
      round_level (pyOrElse st.last_price ((pyIdx w 2).close)) 50)
    (hH : ∃ c ∈ prices_7d w, (pyIdx w 1).close < c)
    (hL : ∃ c ∈ prices_7d w, c < (pyIdx w 1).close)
    (hvolspike : ¬ hourly_volume_vs_avg w > 100) :
    check_alert_gold (some w) none st now =
      (⟨st.last_time, some ((pyIdx w 1).close)⟩, none) := by
  have hbh := broke_high_false (pyOrElse st.last_price ((pyIdx w 2).close)) w
    ((pyIdx w 1).close) hH
  have hbl := broke_low_false (pyOrElse st.last_price ((pyIdx w 2).close)) w
    ((pyIdx w 1).close) hL
  rw [check_alert_gold.eq_def]
  simp only [ALERT_ENABLED, ALERT_GOLD_ENABLED, Bool.and_self, Bool.not_true,
    Bool.false_eq_true, if_false, hcd, hlen, hcross, hbh, hbl]
  rcases lt_or_le (hourly_volume_vs_avg w) (-50 : ℚ) with hv | hv
  · rw [if_pos hv]
  · rw [if_neg (not_lt.mpr hv), if_neg]
    intro h2
    rcases h2 with h | h | h | h | h | h | h
    · simp at h
    · simp at h
    · exact absurd rfl h
    · rcases h with h | h <;> norm_num at h
    · norm_num at h
    · norm_num at h
    · exact absurd h hvolspike

theorem gold_fire (w : List Bar) (st : CrossState) (now : ℚ)
    (hcd : check_cooldown st.last_time ALERT_GOLD_COOLDOWN now = true)
    (hlen : ¬ w.length < 168)
    (hvol : ¬ hourly_volume_vs_avg w < -50)
    (htrig : broke_high_7d (pyOrElse st.last_price ((pyIdx w 2).close)) w
        ((pyIdx w 1).close) = true ∨
      broke_low_7d (pyOrElse st.last_price ((pyIdx w 2).close)) w
        ((pyIdx w 1).close) = true ∨
      round_level ((pyIdx w 1).close) 50 ≠
        round_level (pyOrElse st.last_price ((pyIdx w 2).close)) 50) :
    check_alert_gold (some w) none st now =
      (⟨some now, some ((pyIdx w 1).close)⟩, some .gold) := by
  rw [check_alert_gold.eq_def]
  simp only [ALERT_ENABLED, ALERT_GOLD_ENABLED, Bool.and_self, Bool.not_true,
    Bool.false_eq_true, if_false, hcd, hlen]
  rw [if_neg hvol, if_pos]
  rcases htrig with h | h | h
  · exact Or.inl (by simp [h])
  · exact Or.inr (Or.inl (by simp [h]))
  · exact Or.inr (Or.inr (Or.inl h))

theorem ethValues_cons (t : EthBtcTick) (ts : List EthBtcTick) :
    ethValues (t :: ts) = (pyIdx t.data 1).close :: ethValues ts := rfl

theorem btcValues_cons (t : LevelTick) (ts : List LevelTick) :
    btcValues (t :: ts) = (pyIdx t.data 1).close :: btcValues ts := rfl

theorem goldValues_cons (t : GoldTick) (ts : List GoldTick) :
    goldValues (t :: ts) = (pyIdx t.data 1).close :: goldValues ts := rfl

theorem run_eth_btc_no_fire (ticks : List EthBtcTick) : ∀ (v0 : ℚ) (lt : Option ℚ),
    v0 ≠ 0 →
    (∀ t ∈ ticks, check_cooldown lt ALERT_ETH_BTC_COOLDOWN t.now = true) →
    (∀ t ∈ ticks, EthNeutralTick t) →
    List.Chain (fun a b => eth_btc_crossed_level a b = none) v0 (ethValues ticks) →
    run_eth_btc ⟨lt, some v0⟩ ticks = (⟨lt, some ((ethValues ticks).getLastD v0)⟩, []) := by
  induction ticks with
  | nil => intro v0 lt _ _ _ _; rfl
  | cons t ts ih =>
    intro v0 lt hv0 hgate hneutral hchain
    obtain ⟨hlen, hH, hL, hdiv, hne⟩ := hneutral t (List.mem_cons_self t ts)
    rw [ethValues, List.map_cons, List.chain_cons] at hchain
    obtain ⟨hhead, htail⟩ := hchain
    have hpy : pyOrElse (some v0) ((pyIdx t.data 2).close) = v0 := by
      simp [pyOrElse, hv0]
    have hstep := eth_btc_no_fire t.data t.ethUsd ⟨lt, some v0⟩ t.now
      (hgate t (List.mem_cons_self t ts)) (Nat.not_lt.mpr hlen)
      (by simp only [hpy]; exact hhead) hH hL hdiv
    have hrest := ih ((pyIdx t.data 1).close) lt hne
      (fun u hu => hgate u (List.mem_cons_of_mem t hu))
      (fun u hu => hneutral u (List.mem_cons_of_mem t hu)) htail
    simp only [run_eth_btc, hstep, hrest, Option.toList_none, List.nil_append]
    rw [ethValues_cons, List.getLastD_cons]

theorem run_eth_btc_cross_once (c : EthBtcTick) (post : List EthBtcTick) (v0 : ℚ)
    (hv0 : v0 ≠ 0)
    (hclen : ¬ c.data.length < 168)
    (hcvol : c.ethUsd = none)
    (hcross : (eth_btc_crossed_level v0 ((pyIdx c.data 1).close)).isSome = true)
    (hcne : (pyIdx c.data 1).close ≠ 0)
    (hgate : ∀ t ∈ post, check_cooldown (some c.now) ALERT_ETH_BTC_COOLDOWN t.now = true)
    (hneutral : ∀ t ∈ post, EthNeutralTick t)
    (hchain : List.Chain (fun a b => eth_btc_crossed_level a b = none)
      ((pyIdx c.data 1).close) (ethValues post)) :
    (run_eth_btc ⟨none, some v0⟩ (c :: post)).2 = [.ethBtc] := by
  have hpy : pyOrElse (some v0) ((pyIdx c.data 2).close) = v0 := by
    simp [pyOrElse, hv0]
  have hstep := eth_btc_fire_cross c.data ⟨none, some v0⟩ c.now rfl hclen
    (by simp only [hpy]; exact hcross)
  have hrest := run_eth_btc_no_fire post ((pyIdx c.data 1).close) (some c.now) hcne
    hgate hneutral hchain
  simp only [run_eth_btc, hcvol, hstep, hrest]
  rfl

theorem run_btc_level_no_fire (ticks : List LevelTick) : ∀ (v0 : ℚ) (lt : Option ℚ),
    v0 ≠ 0 →
    (∀ t ∈ ticks, check_cooldown lt ALERT_BTC_COOLDOWN t.now = true) →
    (∀ t ∈ ticks, BtcNeutralTick t) →
    List.Chain (fun a b =>
      round_level b ALERT_BTC_ROUND_INCREMENT = round_level a ALERT_BTC_ROUND_INCREMENT)
      v0 (btcValues ticks) →
    run_btc_level ⟨lt, some v0⟩ ticks = (⟨lt, some ((btcValues ticks).getLastD v0)⟩, []) := by
  induction ticks with
  | nil => intro v0 lt _ _ _ _; rfl
  | cons t ts ih =>
    intro v0 lt hv0 hgate hneutral hchain
    obtain ⟨hlen, hH, hL, hne⟩ := hneutral t (List.mem_cons_self t ts)
    rw [btcValues, List.map_cons, List.chain_cons] at hchain
    obtain ⟨hhead, htail⟩ := hchain
    have hpy : pyOrElse (some v0) ((pyIdx t.data 2).close) = v0 := by
      simp [pyOrElse, hv0]
    have hstep := btc_level_no_fire t.data ⟨lt, some v0⟩ t.now
      (hgate t (List.mem_cons_self t ts)) (Nat.not_lt.mpr hlen)
      (by simp only [hpy]; exact hhead) hH hL
    have hrest := ih ((pyIdx t.data 1).close) lt hne
      (fun u hu => hgate u (List.mem_cons_of_mem t hu))
      (fun u hu => hneutral u (List.mem_cons_of_mem t hu)) htail
    simp only [run_btc_level, hstep, hrest, Option.toList_none, List.nil_append]
    rw [btcValues_cons, List.getLastD_cons]

theorem run_btc_level_cross_once (c : LevelTick) (post : List LevelTick) (v0 : ℚ)
    (hv0 : v0 ≠ 0)
    (hclen : ¬ c.data.length < 168)
    (hcross : round_level ((pyIdx c.data 1).close) ALERT_BTC_ROUND_INCREMENT ≠
      round_level v0 ALERT_BTC_ROUND_INCREMENT)
    (hcH : ∃ x ∈ prices_7d c.data, (pyIdx c.data 1).close < x)
    (hcL : ∃ x ∈ prices_7d c.data, x < (pyIdx c.data 1).close)
    (hcvol : ¬ hourly_volume_vs_avg c.data < -50)
    (hcne : (pyIdx c.data 1).close ≠ 0)
    (hgate : ∀ t ∈ post, check_cooldown (some c.now) ALERT_BTC_COOLDOWN t.now = true)
    (hneutral : ∀ t ∈ post, BtcNeutralTick t)
    (hchain : List.Chain (fun a b =>
      round_level b ALERT_BTC_ROUND_INCREMENT = round_level a ALERT_BTC_ROUND_INCREMENT)
      ((pyIdx c.data 1).close) (btcValues post)) :
    (run_btc_level ⟨none, some v0⟩ (c :: post)).2 =
      [.btcLevel (if (pyIdx c.data 1).close > v0 then .up else .down)] := by
  have hpy : pyOrElse (some v0) ((pyIdx c.data 2).close) = v0 := by
    simp [pyOrElse, hv0]
  have hstep := btc_level_fire_cross c.data ⟨none, some v0⟩ c.now rfl hclen
    (by simp only [hpy]; exact hcross) hcH hcL hcvol
  have hrest := run_btc_level_no_fire post ((pyIdx c.data 1).close) (some c.now) hcne
    hgate hneutral hchain
  simp only [run_btc_level, hstep, hrest]
  simp only [hpy]
  rfl

theorem run_gold_no_fire (ticks : List GoldTick) : ∀ (v0 : ℚ) (lt : Option ℚ),
    v0 ≠ 0 →
    (∀ t ∈ ticks, check_cooldown lt ALERT_GOLD_COOLDOWN t.now = true) →
    (∀ t ∈ ticks, GoldNeutralTick t) →
    List.Chain (fun a b => round_level b 50 = round_level a 50) v0 (goldValues ticks) →
    run_gold ⟨lt, some v0⟩ ticks = (⟨lt, some ((goldValues ticks).getLastD v0)⟩, []) := by
  induction ticks with
  | nil => intro v0 lt _ _ _ _; rfl
  | cons t ts ih =>
    intro v0 lt hv0 hgate hneutral hchain
    obtain ⟨hlen, hH, hL, hvol, hbtc, hne⟩ := hneutral t (List.mem_cons_self t ts)
    rw [goldValues, List.map_cons, List.chain_cons] at hchain
    obtain ⟨hhead, htail⟩ := hchain
    have hpy : pyOrElse (some v0) ((pyIdx t.data 2).close) = v0 := by
      simp [pyOrElse, hv0]
    have hstep := gold_no_fire t.data ⟨lt, some v0⟩ t.now
      (hgate t (List.mem_cons_self t ts)) (Nat.not_lt.mpr hlen)
      (by simp only [hpy]; exact hhead) hH hL hvol
    have hrest := ih ((pyIdx t.data 1).close) lt hne
      (fun u hu => hgate u (List.mem_cons_of_mem t hu))
      (fun u hu => hneutral u (List.mem_cons_of_mem t hu)) htail
    simp only [run_gold, hbtc, hstep, hrest, Option.toList_none, List.nil_append]
    rw [goldValues_cons, List.getLastD_cons]

theorem run_gold_cross_once (c : GoldTick) (post : List GoldTick) (v0 : ℚ)
    (hv0 : v0 ≠ 0)
    (hclen : ¬ c.data.length < 168)
    (hcbtc : c.btc24 = none)
    (hcross : round_level ((pyIdx c.data 1).close) 50 ≠ round_level v0 50)
    (hcvol : ¬ hourly_volume_vs_avg c.data < -50)
    (hcne : (pyIdx c.data 1).close ≠ 0)
    (hgate : ∀ t ∈ post, check_cooldown (some c.now) ALERT_GOLD_COOLDOWN t.now = true)
    (hneutral : ∀ t ∈ post, GoldNeutralTick t)
    (hchain : List.Chain (fun a b => round_level b 50 = round_level a 50)
      ((pyIdx c.data 1).close) (goldValues post)) :
    (run_gold ⟨none, some v0⟩ (c :: post)).2 = [.gold] := by
  have hpy : pyOrElse (some v0) ((pyIdx c.data 2).close) = v0 := by
    simp [pyOrElse, hv0]
  have hstep := gold_fire c.data ⟨none, some v0⟩ c.now rfl hclen hcvol
    (Or.inr (Or.inr (by simp only [hpy]; exact hcross)))
  have hrest := run_gold_no_fire post ((pyIdx c.data 1).close) (some c.now) hcne
    hgate hneutral hchain
  simp only [run_gold, hcbtc, hstep, hrest]
  rfl

theorem eth_crossed_none_of (a b : ℚ)
    (h : ∀ l ∈ ALERT_ETH_BTC_LEVELS, ¬ ((a < l ∧ l ≤ b) ∨ (a > l ∧ l ≥ b))) :
    eth_btc_crossed_level a b = none := by
  rw [eth_btc_crossed_level, List.find?_eq_none]
  intro x hx
  simpa using h x hx

theorem eth_crossed_self (v : ℚ) : eth_btc_crossed_level v v = none := by
  apply eth_crossed_none_of
  intro l hl
  rintro (⟨h1, h2⟩ | ⟨h1, h2⟩) <;> linarith

theorem eth_crossed_up_0040 : eth_btc_crossed_level 0.039 0.041 = some 0.040 := by
  rw [eth_btc_crossed_level, ALERT_ETH_BTC_LEVELS]
  rw [List.find?_cons_of_neg _ (by norm_num), List.find?_cons_of_pos _ (by norm_num)]

theorem eth_crossed_up_0045 : eth_btc_crossed_level 0.041 0.046 = some 0.045 := by
  rw [eth_btc_crossed_level, ALERT_ETH_BTC_LEVELS]
  rw [List.find?_cons_of_neg _ (by norm_num), List.find?_cons_of_neg _ (by norm_num),
    List.find?_cons_of_pos _ (by norm_num)]

theorem broke_high_true (p : ℚ) (w : List Bar) (h : 168 ≤ w.length)
    (hmax : ∀ c ∈ prices_7d w, c ≤ (pyIdx w 1).close)
    (hp : p < (pyIdx w 1).close) :
    broke_high_7d p w ((pyIdx w 1).close) = true := by
  have hhigh : high_7d w = (pyIdx w 1).close := by
    rw [high_7d]
    exact listMax_eq_of_mem_of_le (pyIdx_one_mem_prices w h) hmax
  rw [broke_high_7d]
  apply decide_eq_true
  exact ⟨by rw [hhigh]; exact hp, by rw [hhigh]⟩

theorem monoWindow_length (s : ℕ) : (monoWindow s).length = 168 := by
  rw [monoWindow]
  simp

theorem monoWindow_pyIdx (s k : ℕ) (h1 : 1 ≤ k) (h2 : k ≤ 168) :
    pyIdx (monoWindow s) k = ⟨100 + ((s + (168 - k) : ℕ) : ℚ) / 10, 1⟩ := by
  have hidx := pyIdx_getElem (monoWindow s) k h1 (by rw [monoWindow_length]; omega)
  rw [monoWindow_length, monoWindow] at hidx
  rw [List.getElem?_map, List.getElem?_range (by omega : 168 - k < 168)] at hidx
  have h2 := hidx.symm
  rw [monoWindow]
  push_cast at h2 ⊢
  simpa using h2

theorem monoWindow_prices (s : ℕ) :
    prices_7d (monoWindow s) =
      (List.range 168).map fun i => 100 + ((s + i : ℕ) : ℚ) / 10 := by
  rw [prices_7d, monoWindow_length]
  have h0 : 168 - 168 = 0 := rfl
  rw [h0, List.drop_zero, monoWindow, List.map_map]
  rfl

theorem monoWindow_mem_le (s : ℕ) :
    ∀ c ∈ prices_7d (monoWindow s), c ≤ 100 + ((s + 167 : ℕ) : ℚ) / 10 := by
  intro c hc
  rw [monoWindow_prices] at hc
  rcases List.mem_map.mp hc with ⟨i, hi, rfl⟩
  have hi167 : (i : ℚ) ≤ 167 := by
    exact_mod_cast Nat.lt_succ_iff.mp (List.mem_range.mp hi)
  push_cast
  linarith

theorem monoWindow_volume (s : ℕ) : hourly_volume_vs_avg (monoWindow s) = 0 := by
  apply volume_vs_avg_const
  · rw [monoWindow_length]
    norm_num
  · intro bar hbar
    rw [monoWindow] at hbar
    rcases List.mem_map.mp hbar with ⟨i, hi, rfl⟩
    rfl

theorem derivatives_danger_fires :
    (check_alert_derivatives (some 0.001) (some 400000) (some 100000) none 0).2 =
      some (.derivatives .danger) := by
  have hq : derivatives_classify ((0.001 : ℚ) * 100) ((400000 : ℚ) * 100000 / 1000000000) =
      .danger := by
    rw [derivatives_classify, if_pos]
    constructor <;> norm_num [ALERT_DERIVATIVES_FUNDING_EXTREME, ALERT_DERIVATIVES_OI_HIGH]
  rw [check_alert_derivatives]
  simp [check_cooldown, hq, ALERT_ENABLED, ALERT_DERIVATIVES_ENABLED]

/-- Claim C10: check_cooldown returns True whenever last_time is None, so
a detector that has never fired since process start is never suppressed
by its cooldown gate, regardless of the configured cooldown duration. -/
theorem claim_C10_cooldown_none (cooldown_minutes now : ℚ) :
    check_cooldown none cooldown_minutes now = true := rfl

/-- Claim C1 counterexample: at funding rate +0.001 percent with open
interest 40 billion dollars (high magnitude, near-neutral rate) the code
classifies the pair healthy and emits no alert, whereas the claim
requires the quadrant latent-risk-watch together with an alert: the
if/elif chain of check_alert_derivatives has no latent-risk branch. -/
theorem claim_C1_counterexample :
    derivatives_classify 0.001 40 = .healthy ∧
    (check_alert_derivatives (some 0.00001) (some 400000) (some 100000) none 0).2 = none := by
  constructor
  · rw [derivatives_classify, if_neg, if_neg, if_neg]
    · rw [ALERT_DERIVATIVES_FUNDING_VERY_EXTREME]
      intro h
      rw [abs_of_pos (by norm_num)] at h
      norm_num at h
    · rw [ALERT_DERIVATIVES_FUNDING_EXTREME]
      rintro ⟨h, -⟩
      norm_num at h
    · rw [ALERT_DERIVATIVES_FUNDING_EXTREME]
      rintro ⟨h, -⟩
      norm_num at h
  · rw [check_alert_derivatives]
    norm_num [check_cooldown, derivatives_classify, ALERT_DERIVATIVES_FUNDING_EXTREME,
      ALERT_DERIVATIVES_FUNDING_VERY_EXTREME, ALERT_DERIVATIVES_OI_HIGH,
      abs_of_pos, ALERT_ENABLED, ALERT_DERIVATIVES_ENABLED]

/-- Claim C1 (amended): the composite detector deterministically maps
extreme-positive rate with high magnitude to danger, extreme-negative
rate with high magnitude to opportunity, and very-extreme rate without
high magnitude to a directional caution; everything else - including
high magnitude with a near-neutral rate, for which the spec expects a
separate latent-risk quadrant - is healthy, and an alert is emitted
exactly for the non-healthy quadrants, subject to the cooldown gate. -/
theorem claim_C1_derivatives_quadrants (r m : ℚ) :
    (r ≥ ALERT_DERIVATIVES_FUNDING_EXTREME ∧ m ≥ ALERT_DERIVATIVES_OI_HIGH →
      derivatives_classify r m = .danger) ∧
    (r ≤ -ALERT_DERIVATIVES_FUNDING_EXTREME ∧ m ≥ ALERT_DERIVATIVES_OI_HIGH →
      derivatives_classify r m = .opportunity) ∧
    (|r| ≥ ALERT_DERIVATIVES_FUNDING_VERY_EXTREME ∧ m < ALERT_DERIVATIVES_OI_HIGH →
      derivatives_classify r m = (if r > 0 then .cautionBullish else .cautionBearish)) ∧
    (|r| < ALERT_DERIVATIVES_FUNDING_EXTREME → derivatives_classify r m = .healthy) ∧
    (|r| < ALERT_DERIVATIVES_FUNDING_VERY_EXTREME ∧ m < ALERT_DERIVATIVES_OI_HIGH →
      derivatives_classify r m = .healthy) ∧
    (∀ (rate oi price last now : ℚ),
      (check_alert_derivatives (some rate) (some oi) (some price) last now).2 ≠ none ↔
        check_cooldown last ALERT_DERIVATIVES_COOLDOWN now = true ∧
          derivatives_classify (rate * 100) (oi * price / 1000000000) ≠ .healthy) := by
  have hE : ALERT_DERIVATIVES_FUNDING_EXTREME = 0.08 := rfl
  have hV : ALERT_DERIVATIVES_FUNDING_VERY_EXTREME = 0.10 := rfl
  refine ⟨?_, ?_, ?_, ?_, ?_, ?_⟩
  · rintro ⟨h1, h2⟩
    rw [derivatives_classify, if_pos ⟨h1, h2⟩]
  · rintro ⟨h1, h2⟩
    rw [derivatives_classify, if_neg (by rw [hE] at h1 ⊢; rintro ⟨ha, -⟩; linarith),
      if_pos ⟨h1, h2⟩]
  · rintro ⟨h1, h2⟩
    rw [derivatives_classify, if_neg (by rintro ⟨-, hb⟩; linarith),
      if_neg (by rintro ⟨-, hb⟩; linarith), if_pos h1]
  · intro h1
    have hr1 : r ≤ |r| := le_abs_self r
    have hr2 : -r ≤ |r| := neg_le_abs r
    rw [hE] at h1
    rw [derivatives_classify, if_neg (by rw [hE]; rintro ⟨ha, -⟩; linarith),
      if_neg (by rw [hE]; rintro ⟨ha, -⟩; linarith),
      if_neg (by rw [hV]; intro ha; rw [hE, hV] at *; linarith)]
  · rintro ⟨h1, h2⟩
    rw [derivatives_classify, if_neg (by rintro ⟨-, hb⟩; linarith),
      if_neg (by rintro ⟨-, hb⟩; linarith), if_neg (by intro ha; linarith)]
  · intro rate oi price last now
    rw [check_alert_derivatives]
    cases hc : check_cooldown last ALERT_DERIVATIVES_COOLDOWN now with
    | false => simp [hc]
    | true =>
      simp only [hc, ALERT_ENABLED, ALERT_DERIVATIVES_ENABLED, Bool.and_self,
        Bool.not_true, Bool.false_eq_true, if_false, Option.getD_some, true_and]
      split_ifs with hq
      · simpa using hq
      · simpa using hq

/-- Claim C1 witness: the amended quadrant theorem evaluated at concrete
inputs of each alerting quadrant and of the near-neutral healthy case. -/
theorem claim_C1_witness :
    derivatives_classify 0.09 40 = .danger ∧
    derivatives_classify (-0.09) 40 = .opportunity ∧
    derivatives_classify 0.12 10 = .cautionBullish ∧
    derivatives_classify 0.05 40 = .healthy := by
  refine ⟨(claim_C1_derivatives_quadrants 0.09 40).1
      ⟨by norm_num [ALERT_DERIVATIVES_FUNDING_EXTREME], by norm_num [ALERT_DERIVATIVES_OI_HIGH]⟩,
    (claim_C1_derivatives_quadrants (-0.09) 40).2.1
      ⟨by norm_num [ALERT_DERIVATIVES_FUNDING_EXTREME], by norm_num [ALERT_DERIVATIVES_OI_HIGH]⟩,
    ?_, ?_⟩
  · have h := (claim_C1_derivatives_quadrants 0.12 10).2.2.1
      ⟨by rw [abs_of_pos (by norm_num)]; norm_num [ALERT_DERIVATIVES_FUNDING_VERY_EXTREME],
       by norm_num [ALERT_DERIVATIVES_OI_HIGH]⟩
    rw [h, if_pos (by norm_num)]
  · exact (claim_C1_derivatives_quadrants 0.05 40).2.2.2.1
      (by rw [abs_of_pos (by norm_num)]; norm_num [ALERT_DERIVATIVES_FUNDING_EXTREME])

/-- Claim C2 counterexample: when the BTC minute fetch fails, the cycle
dispatches no events at all, even though the derivatives detector -
operating on an entirely different instrument - would have fired in that
same cycle: check_all_signals returns before invoking any detector. -/
theorem claim_C2_counterexample :
    (check_all_signals envBtcDown initialState).2 = [] ∧
    (check_alert_derivatives envBtcDown.funding envBtcDown.oiContracts envBtcDown.derivPrice
        initialState.derivatives_time envBtcDown.now).2 = some (.derivatives .danger) :=
  ⟨rfl, derivatives_danger_fires⟩

/-- Claim C2 (amended): once the shared BTC minute window has been
fetched successfully (at least 130 bars), the nine detectors are invoked
unconditionally in sequence, so a failure affecting any other
instrument's fetch cannot suppress a sibling detector's event - any
event the derivatives detector produces is dispatched by the cycle.  A
failure of the shared BTC minute fetch, however, aborts the whole cycle
before any detector runs. -/
theorem claim_C2_isolation_amended (env : SignalEnv) (st : SignalState) :
    (∀ p candles, env.btcMinute = some (p, candles) → ¬ candles.length < 130 →
      ∀ e, (check_alert_derivatives env.funding env.oiContracts env.derivPrice
          st.derivatives_time env.now).2 = some e →
        e ∈ (check_all_signals env st).2) ∧
    (env.btcMinute = none → (check_all_signals env st).2 = []) := by
  constructor
  · rintro p candles hbm hlen e he
    have hlist : (check_all_signals env st).2 =
        [(check_alert_acceleration candles p st.acceleration_time env.now).2,
         (check_alert_momentum candles p st.momentum_time env.now).2,
         (check_alert_spike candles p st.spike_time env.now).2,
         (check_alert_gold env.gold720 env.goldBtc24 st.gold env.now).2,
         (check_alert_rotation env.rotBtcPrice env.rotGold env.rotBtcHist
            st.rotation_time env.now).2,
         (check_alert_btc_level env.btc720 st.btc_level env.now).2,
         (check_alert_eth_btc env.ethBtc720 env.ethUsd720 st.eth_btc env.now).2,
         (check_alert_btc_dominance env.globalDom env.domBtcHist st.dom env.now).2,
         (check_alert_derivatives env.funding env.oiContracts env.derivPrice
            st.derivatives_time env.now).2].filterMap id := by
      rw [check_all_signals, hbm]
      simp [hlen]
    rw [hlist, he]
    exact List.mem_filterMap.mpr ⟨some e, by simp, rfl⟩
  · intro hb
    rw [check_all_signals, hb]

/-- Claim C2 witness: in a cycle whose gold, rotation, BTC-level,
ETH/BTC and dominance fetches all fail but whose BTC minute data is
healthy, the derivatives danger event is still dispatched. -/
theorem claim_C2_witness :
    Event.derivatives .danger ∈ (check_all_signals envGoldDown initialState).2 := by
  exact (claim_C2_isolation_amended envGoldDown initialState).1 100000
    (List.replicate 130 ⟨100000, 1⟩) rfl (by simp) (.derivatives .danger)
    derivatives_danger_fires

/-- Claim C3 counterexample: after ETH/BTC crosses 0.040 (0.039 to
0.041, one event), a later tick at 0.046 - strictly on the crossed side
of 0.040 - crosses the next configured level 0.045 and fires AGAIN, so
repeated ticks strictly on the crossed side can produce further
events. -/
theorem claim_C3_counterexample :
    eth_btc_crossed_level 0.039 0.041 = some 0.040 ∧
    (0.040 : ℚ) < 0.046 ∧
    (run_eth_btc ⟨none, some 0.039⟩
      [⟨0, mkWindow 0.0415 0.0395 0.0408 0.0405 0.041, none⟩,
       ⟨10000, mkWindow 0.047 0.0445 0.0455 0.0452 0.046, none⟩]).2.length = 2 := by
  have hcur1 : (pyIdx (mkWindow 0.0415 0.0395 0.0408 0.0405 0.041) 1).close = 0.041 := by
    rw [mkWindow_pyIdx_one]
  have hcur2 : (pyIdx (mkWindow 0.047 0.0445 0.0455 0.0452 0.046) 1).close = 0.046 := by
    rw [mkWindow_pyIdx_one]
  refine ⟨eth_crossed_up_0040, by norm_num, ?_⟩
  have hpy1 : pyOrElse (some (0.039 : ℚ))
      ((pyIdx (mkWindow 0.0415 0.0395 0.0408 0.0405 0.041) 2).close) = 0.039 := by
    norm_num [pyOrElse]
  have hstep1 := eth_btc_fire_cross (mkWindow 0.0415 0.0395 0.0408 0.0405 0.041)
    ⟨none, some 0.039⟩ 0 rfl (by rw [mkWindow_length]; norm_num)
    (by
      rw [show pyOrElse ((⟨none, some (0.039 : ℚ)⟩ : CrossState).last_price)
        ((pyIdx (mkWindow 0.0415 0.0395 0.0408 0.0405 0.041) 2).close) = 0.039 from hpy1,
        hcur1, eth_crossed_up_0040]
      rfl)
  have hpy2 : pyOrElse (some ((pyIdx (mkWindow 0.0415 0.0395 0.0408 0.0405 0.041) 1).close))
      ((pyIdx (mkWindow 0.047 0.0445 0.0455 0.0452 0.046) 2).close) = 0.041 := by
    rw [hcur1]
    norm_num [pyOrElse]
  have hstep2 := eth_btc_fire_cross (mkWindow 0.047 0.0445 0.0455 0.0452 0.046)
    ⟨some 0, some ((pyIdx (mkWindow 0.0415 0.0395 0.0408 0.0405 0.041) 1).close)⟩ 10000
    (by rw [check_cooldown]; norm_num [ALERT_ETH_BTC_COOLDOWN])
    (by rw [mkWindow_length]; norm_num)
    (by
      rw [show pyOrElse ((⟨some (0 : ℚ),
        some ((pyIdx (mkWindow 0.0415 0.0395 0.0408 0.0405 0.041) 1).close)⟩ :
          CrossState).last_price)
        ((pyIdx (mkWindow 0.047 0.0445 0.0455 0.0452 0.046) 2).close) = 0.041 from hpy2,
        hcur2, eth_crossed_up_0045]
      rfl)
  simp only [run_eth_btc, hstep1, hstep2]
  rfl

/-- Claim C3 (amended): for the Round-Level Cross detectors (BTC, gold)
and the Explicit-Level Cross detector (ETH/BTC), a sequence of
observations that never crosses a level produces zero events; a single
cross produces exactly one event; and subsequent ticks strictly on the
crossed side produce no further events - even after the cooldown has
elapsed - PROVIDED no consecutive pair of observations straddles any
further level (a later tick that crosses the next level fires again, as
the counterexample shows) and no other trigger condition of the detector
holds. -/
theorem claim_C3_crossing_idempotence_amended :
    (∀ (ticks : List EthBtcTick) (v0 : ℚ), v0 ≠ 0 →
      (∀ t ∈ ticks, EthNeutralTick t) →
      List.Chain (fun a b => eth_btc_crossed_level a b = none) v0 (ethValues ticks) →
      (run_eth_btc ⟨none, some v0⟩ ticks).2 = []) ∧
    (∀ (c : EthBtcTick) (post : List EthBtcTick) (v0 : ℚ), v0 ≠ 0 →
      ¬ c.data.length < 168 → c.ethUsd = none →
      (eth_btc_crossed_level v0 ((pyIdx c.data 1).close)).isSome = true →
      (pyIdx c.data 1).close ≠ 0 →
      (∀ t ∈ post, t.now - c.now ≥ ALERT_ETH_BTC_COOLDOWN) →
      (∀ t ∈ post, EthNeutralTick t) →
      List.Chain (fun a b => eth_btc_crossed_level a b = none)
        ((pyIdx c.data 1).close) (ethValues post) →
      (run_eth_btc ⟨none, some v0⟩ (c :: post)).2.length = 1) ∧
    (∀ (ticks : List LevelTick) (v0 : ℚ), v0 ≠ 0 →
      (∀ t ∈ ticks, BtcNeutralTick t) →
      List.Chain (fun a b => round_level b ALERT_BTC_ROUND_INCREMENT =
        round_level a ALERT_BTC_ROUND_INCREMENT) v0 (btcValues ticks) →
      (run_btc_level ⟨none, some v0⟩ ticks).2 = []) ∧
    (∀ (c : LevelTick) (post : List LevelTick) (v0 : ℚ), v0 ≠ 0 →
      ¬ c.data.length < 168 →
      round_level ((pyIdx c.data 1).close) ALERT_BTC_ROUND_INCREMENT ≠
        round_level v0 ALERT_BTC_ROUND_INCREMENT →
      (∃ x ∈ prices_7d c.data, (pyIdx c.data 1).close < x) →
      (∃ x ∈ prices_7d c.data, x < (pyIdx c.data 1).close) →
      ¬ hourly_volume_vs_avg c.data < -50 →
      (pyIdx c.data 1).close ≠ 0 →
      (∀ t ∈ post, t.now - c.now ≥ ALERT_BTC_COOLDOWN) →
      (∀ t ∈ post, BtcNeutralTick t) →
      List.Chain (fun a b => round_level b ALERT_BTC_ROUND_INCREMENT =
        round_level a ALERT_BTC_ROUND_INCREMENT) ((pyIdx c.data 1).close)
        (btcValues post) →
      (run_btc_level ⟨none, some v0⟩ (c :: post)).2.length = 1) ∧
    (∀ (ticks : List GoldTick) (v0 : ℚ), v0 ≠ 0 →
      (∀ t ∈ ticks, GoldNeutralTick t) →
      List.Chain (fun a b => round_level b 50 = round_level a 50) v0
        (goldValues ticks) →
      (run_gold ⟨none, some v0⟩ ticks).2 = []) ∧
    (∀ (c : GoldTick) (post : List GoldTick) (v0 : ℚ), v0 ≠ 0 →
      ¬ c.data.length < 168 → c.btc24 = none →
      round_level ((pyIdx c.data 1).close) 50 ≠ round_level v0 50 →
      ¬ hourly_volume_vs_avg c.data < -50 →
      (pyIdx c.data 1).close ≠ 0 →
      (∀ t ∈ post, t.now - c.now ≥ ALERT_GOLD_COOLDOWN) →
      (∀ t ∈ post, GoldNeutralTick t) →
      List.Chain (fun a b => round_level b 50 = round_level a 50)
        ((pyIdx c.data 1).close) (goldValues post) →
      (run_gold ⟨none, some v0⟩ (c :: post)).2.length = 1) := by
  refine ⟨?_, ?_, ?_, ?_, ?_, ?_⟩
  · intro ticks v0 hv0 hneut hchain
    rw [run_eth_btc_no_fire ticks v0 none hv0 (fun t _ => rfl) hneut hchain]
  · intro c post v0 hv0 hclen hcvol hcross hcne hgatetime hneut hchain
    have hgate : ∀ t ∈ post, check_cooldown (some c.now) ALERT_ETH_BTC_COOLDOWN t.now
        = true := by
      intro t ht
      rw [check_cooldown]
      exact decide_eq_true (hgatetime t ht)
    rw [run_eth_btc_cross_once c post v0 hv0 hclen hcvol hcross hcne hgate hneut hchain]
    rfl
  · intro ticks v0 hv0 hneut hchain
    rw [run_btc_level_no_fire ticks v0 none hv0 (fun t _ => rfl) hneut hchain]
  · intro c post v0 hv0 hclen hcross hH hL hvol hcne hgatetime hneut hchain
    have hgate : ∀ t ∈ post, check_cooldown (some c.now) ALERT_BTC_COOLDOWN t.now
        = true := by
      intro t ht
      rw [check_cooldown]
      exact decide_eq_true (hgatetime t ht)
    rw [run_btc_level_cross_once c post v0 hv0 hclen hcross hH hL hvol hcne hgate
      hneut hchain]
    rfl
  · intro ticks v0 hv0 hneut hchain
    rw [run_gold_no_fire ticks v0 none hv0 (fun t _ => rfl) hneut hchain]
  · intro c post v0 hv0 hclen hcbtc hcross hvol hcne hgatetime hneut hchain
    have hgate : ∀ t ∈ post, check_cooldown (some c.now) ALERT_GOLD_COOLDOWN t.now
        = true := by
      intro t ht
      rw [check_cooldown]
      exact decide_eq_true (hgatetime t ht)
    rw [run_gold_cross_once c post v0 hv0 hclen hcbtc hcross hvol hcne hgate hneut hchain]
    rfl

/-- Claim C3 witness: the amended theorem at concrete one-tick runs -
for each of the three detectors, a non-crossing tick yields no event and
a crossing tick yields exactly one. -/
theorem claim_C3_witness :
    (run_eth_btc ⟨none, some 0.041⟩
      [⟨0, mkWindow 0.045 0.038 0.0408 0.0405 0.041, none⟩]).2 = [] ∧
    (run_eth_btc ⟨none, some 0.039⟩
      [⟨0, mkWindow 0.045 0.038 0.0408 0.0405 0.041, none⟩]).2.length = 1 ∧
    (run_btc_level ⟨none, some 99210⟩
      [⟨0, mkWindow 99600 99010 99060 99110 99210⟩]).2 = [] ∧
    (run_btc_level ⟨none, some 101900⟩
      [⟨0, mkWindow 102500 100050 100200 100300 102100⟩]).2.length = 1 ∧
    (run_gold ⟨none, some 2021⟩
      [⟨0, mkWindow 2041 2006 2012 2011 2021, none⟩]).2 = [] ∧
    (run_gold ⟨none, some 2040⟩
      [⟨0, mkWindow 2090 2010 2020 2030 2060, none⟩]).2.length = 1 := by
  have hcurA : (pyIdx (mkWindow 0.045 0.038 0.0408 0.0405 0.041) 1).close = 0.041 := by
    rw [mkWindow_pyIdx_one]
  have hfourA : (pyIdx (mkWindow 0.045 0.038 0.0408 0.0405 0.041) 4).close = 0.0408 := by
    rw [mkWindow_pyIdx_mid _ _ _ _ _ 4 (by norm_num) (by norm_num)]
  have hneutA : EthNeutralTick ⟨0, mkWindow 0.045 0.038 0.0408 0.0405 0.041, none⟩ := by
    refine ⟨by rw [mkWindow_length], ?_, ?_, ?_, ?_⟩
    · exact ⟨0.045, by rw [mkWindow_prices]; exact List.mem_cons_self _ _,
        by rw [hcurA]; norm_num⟩
    · exact ⟨0.038,
        by rw [mkWindow_prices]; exact List.mem_cons_of_mem _ (List.mem_cons_self _ _),
        by rw [hcurA]; norm_num⟩
    · rw [hcurA, hfourA, ALERT_ETH_BTC_DIVERGENCE_THRESHOLD,
        abs_of_pos (by norm_num)]
      norm_num
    · rw [hcurA]
      norm_num
  refine ⟨?_, ?_, ?_, ?_, ?_, ?_⟩
  · refine (claim_C3_crossing_idempotence_amended).1 _ 0.041 (by norm_num) ?_ ?_
    · intro t ht
      rcases List.mem_singleton.mp ht with rfl
      exact hneutA
    · rw [ethValues_cons]
      refine List.chain_cons.mpr ⟨?_, List.Chain.nil⟩
      rw [hcurA]
      exact eth_crossed_self 0.041
  · refine (claim_C3_crossing_idempotence_amended).2.1 _ [] 0.039 (by norm_num)
      (by rw [mkWindow_length]; norm_num) rfl ?_ ?_ (by intro t ht; cases ht)
      (by intro t ht; cases ht) List.Chain.nil
    · rw [hcurA, eth_crossed_up_0040]
      rfl
    · rw [hcurA]
      norm_num
  · refine (claim_C3_crossing_idempotence_amended).2.2.1 _ 99210 (by norm_num) ?_ ?_
    · intro t ht
      rcases List.mem_singleton.mp ht with rfl
      refine ⟨by rw [mkWindow_length], ?_, ?_, ?_⟩
      · exact ⟨99600, by rw [mkWindow_prices]; exact List.mem_cons_self _ _,
          by rw [mkWindow_pyIdx_one]; norm_num⟩
      · exact ⟨99010,
          by rw [mkWindow_prices]; exact List.mem_cons_of_mem _ (List.mem_cons_self _ _),
          by rw [mkWindow_pyIdx_one]; norm_num⟩
      · rw [mkWindow_pyIdx_one]
        norm_num
    · rw [btcValues_cons]
      refine List.chain_cons.mpr ⟨?_, List.Chain.nil⟩
      rw [mkWindow_pyIdx_one]
  · refine (claim_C3_crossing_idempotence_amended).2.2.2.1 _ [] 101900 (by norm_num)
      (by rw [mkWindow_length]; norm_num) ?_ ?_ ?_
      (by rw [mkWindow_volume]; norm_num)
      (by rw [mkWindow_pyIdx_one]; norm_num)
      (by intro t ht; cases ht) (by intro t ht; cases ht) List.Chain.nil
    · rw [mkWindow_pyIdx_one]
      norm_num [round_level, ALERT_BTC_ROUND_INCREMENT]
    · exact ⟨102500, by rw [mkWindow_prices]; exact List.mem_cons_self _ _,
        by rw [mkWindow_pyIdx_one]; norm_num⟩
    · exact ⟨100050,
        by rw [mkWindow_prices]; exact List.mem_cons_of_mem _ (List.mem_cons_self _ _),
        by rw [mkWindow_pyIdx_one]; norm_num⟩
  · refine (claim_C3_crossing_idempotence_amended).2.2.2.2.1 _ 2021 (by norm_num) ?_ ?_
    · intro t ht
      rcases List.mem_singleton.mp ht with rfl
      refine ⟨by rw [mkWindow_length], ?_, ?_, ?_, rfl, ?_⟩
      · exact ⟨2041, by rw [mkWindow_prices]; exact List.mem_cons_self _ _,
          by rw [mkWindow_pyIdx_one]; norm_num⟩
      · exact ⟨2006,
          by rw [mkWindow_prices]; exact List.mem_cons_of_mem _ (List.mem_cons_self _ _),
          by rw [mkWindow_pyIdx_one]; norm_num⟩
      · rw [mkWindow_volume]
        norm_num
      · rw [mkWindow_pyIdx_one]
        norm_num
    · rw [goldValues_cons]
      refine List.chain_cons.mpr ⟨?_, List.Chain.nil⟩
      rw [mkWindow_pyIdx_one]
  · refine (claim_C3_crossing_idempotence_amended).2.2.2.2.2 _ [] 2040 (by norm_num)
      (by rw [mkWindow_length]; norm_num) rfl ?_
      (by rw [mkWindow_volume]; norm_num)
      (by rw [mkWindow_pyIdx_one]; norm_num)
      (by intro t ht; cases ht) (by intro t ht; cases ht) List.Chain.nil
    rw [mkWindow_pyIdx_one]
    norm_num [round_level]

/-- Claim C5 counterexample: on the very first run (both state fields
None) the BTC round-level detector can fire: the source falls back to
the second-to-last close as the previous observation, so a window whose
last two closes straddle a 2000-dollar level (99900 then 100100 around
100000) emits an event with no prior state. -/
theorem claim_C5_counterexample :
    (check_alert_btc_level (some (mkWindow 100500 98100 98200 99900 100100))
        ⟨none, none⟩ 0).2 = some (.btcLevel .up) := by
  have h := btc_level_fire_cross (mkWindow 100500 98100 98200 99900 100100) ⟨none, none⟩ 0
    rfl (by rw [mkWindow_length]; norm_num)
    (by
      simp only [mkWindow_pyIdx_one, mkWindow_pyIdx_two, pyOrElse]
      norm_num [round_level, ALERT_BTC_ROUND_INCREMENT])
    ⟨100500, by rw [mkWindow_prices]; exact List.mem_cons_self _ _,
      by rw [mkWindow_pyIdx_one]; norm_num⟩
    ⟨98100, by rw [mkWindow_prices]; exact List.mem_cons_of_mem _ (List.mem_cons_self _ _),
      by rw [mkWindow_pyIdx_one]; norm_num⟩
    (by rw [mkWindow_volume]; norm_num)
  rw [h]
  simp only [mkWindow_pyIdx_one, mkWindow_pyIdx_two, pyOrElse]
  norm_num

/-- Claim C5 (amended): on the first evaluation the crossing detectors
default the previous observation to the second-to-last close, so a
first-run firing is possible exactly when that fallback pair straddles a
level; when the last two closes share the same round bucket (and the
current close breaks neither 7-day extremum, and - for gold - the volume
is not in spike territory), the first run emits no event and only
records the current close as baseline. -/
theorem claim_C5_first_run_amended (w wg : List Bar) (now : ℚ) :
    (¬ w.length < 168 →
      round_level ((pyIdx w 1).close) ALERT_BTC_ROUND_INCREMENT =
        round_level ((pyIdx w 2).close) ALERT_BTC_ROUND_INCREMENT →
      (∃ c ∈ prices_7d w, (pyIdx w 1).close < c) →
      (∃ c ∈ prices_7d w, c < (pyIdx w 1).close) →
      check_alert_btc_level (some w) ⟨none, none⟩ now =
        (⟨none, some ((pyIdx w 1).close)⟩, none)) ∧
    (¬ wg.length < 168 →
      round_level ((pyIdx wg 1).close) 50 = round_level ((pyIdx wg 2).close) 50 →
      (∃ c ∈ prices_7d wg, (pyIdx wg 1).close < c) →
      (∃ c ∈ prices_7d wg, c < (pyIdx wg 1).close) →
      ¬ hourly_volume_vs_avg wg > 100 →
      check_alert_gold (some wg) none ⟨none, none⟩ now =
        (⟨none, some ((pyIdx wg 1).close)⟩, none)) := by
  constructor
  · intro hlen hcross hH hL
    exact btc_level_no_fire w ⟨none, none⟩ now rfl hlen hcross hH hL
  · intro hlen hcross hH hL hvol
    exact gold_no_fire wg ⟨none, none⟩ now rfl hlen hcross hH hL hvol

/-- Claim C5 witness: concrete first-run windows whose last two closes
share a round bucket produce no event and record the baseline, for both
the BTC and the gold detector. -/
theorem claim_C5_witness :
    check_alert_btc_level (some (mkWindow 99500 99000 99050 99100 99200))
        ⟨none, none⟩ 0 = (⟨none, some 99200⟩, none) ∧
    check_alert_gold (some (mkWindow 2040 2005 2010 2010 2020)) none
        ⟨none, none⟩ 0 = (⟨none, some 2020⟩, none) := by
  constructor
  · have h := (claim_C5_first_run_amended (mkWindow 99500 99000 99050 99100 99200)
        [] 0).1
      (by rw [mkWindow_length]; norm_num)
      (by
        simp only [mkWindow_pyIdx_one, mkWindow_pyIdx_two]
        norm_num [round_level, ALERT_BTC_ROUND_INCREMENT])
      ⟨99500, by rw [mkWindow_prices]; exact List.mem_cons_self _ _,
        by rw [mkWindow_pyIdx_one]; norm_num⟩
      ⟨99000, by rw [mkWindow_prices]; exact List.mem_cons_of_mem _ (List.mem_cons_self _ _),
        by rw [mkWindow_pyIdx_one]; norm_num⟩
    rw [h, mkWindow_pyIdx_one]
  · have h := (claim_C5_first_run_amended []
        (mkWindow 2040 2005 2010 2010 2020) 0).2
      (by rw [mkWindow_length]; norm_num)
      (by
        simp only [mkWindow_pyIdx_one, mkWindow_pyIdx_two]
        norm_num [round_level])
      ⟨2040, by rw [mkWindow_prices]; exact List.mem_cons_self _ _,
        by rw [mkWindow_pyIdx_one]; norm_num⟩
      ⟨2005, by rw [mkWindow_prices]; exact List.mem_cons_of_mem _ (List.mem_cons_self _ _),
        by rw [mkWindow_pyIdx_one]; norm_num⟩
      (by rw [mkWindow_volume]; norm_num)
    rw [h, mkWindow_pyIdx_one]

/-- Claim C6 counterexample: invoked within its cooldown window, the
ETH/BTC detector returns before fetching or evaluating anything; it
emits no event AND leaves last_observed_value untouched (still the stale
0.039, not the current 0.041), contradicting the claimed state
refresh. -/
theorem claim_C6_counterexample :
    check_alert_eth_btc (some (mkWindow 0.045 0.038 0.041 0.0405 0.041)) none
        ⟨some 0, some 0.039⟩ 10 = (⟨some 0, some 0.039⟩, none) ∧
    some ((pyIdx (mkWindow 0.045 0.038 0.041 0.0405 0.041) 1).close) ≠
      some (0.039 : ℚ) := by
  constructor
  · exact eth_btc_skip_cooldown _ none ⟨some 0, some 0.039⟩ 10
      (by rw [check_cooldown]; norm_num [ALERT_ETH_BTC_COOLDOWN])
  · rw [mkWindow_pyIdx_one]
    norm_num

/-- Claim C6 (amended): a crossing detector invoked within its cooldown
returns immediately, leaving BOTH the observed value and the fired
timestamp unchanged and emitting nothing; once the cooldown has elapsed
(and the window is long enough), every invocation refreshes the
observed value to the current close regardless of firing, and leaves the
fired timestamp unchanged whenever it does not fire. -/
theorem claim_C6_state_refresh_amended (d du : Option (List Bar)) (st : CrossState)
    (now : ℚ) :
    (check_cooldown st.last_time ALERT_ETH_BTC_COOLDOWN now = false →
      check_alert_eth_btc d du st now = (st, none)) ∧
    (∀ w, d = some w → check_cooldown st.last_time ALERT_ETH_BTC_COOLDOWN now = true →
      ¬ w.length < 168 →
      (check_alert_eth_btc d du st now).1.last_price = some ((pyIdx w 1).close) ∧
      ((check_alert_eth_btc d du st now).2 = none →
        (check_alert_eth_btc d du st now).1.last_time = st.last_time)) := by
  constructor
  · intro hcd
    exact eth_btc_skip_cooldown d du st now hcd
  · rintro w rfl hcd hlen
    rw [check_alert_eth_btc.eq_def]
    simp only [ALERT_ENABLED, ALERT_ETH_BTC_ENABLED, Bool.and_self, Bool.not_true,
      Bool.false_eq_true, if_false, hcd, hlen]
    split_ifs with h1 h2
    · exact ⟨rfl, fun _ => rfl⟩
    · exact ⟨rfl, fun hc => absurd hc (by simp)⟩
    · exact ⟨rfl, fun _ => rfl⟩

/-- Claim C6 witness: the amended theorem evaluated at a concrete stale
state - within cooldown nothing changes and nothing fires; after the
cooldown the observed value is refreshed to the current close. -/
theorem claim_C6_witness :
    check_alert_eth_btc (some (mkWindow 0.045 0.038 0.041 0.0405 0.041)) none
        ⟨some 0, some 0.042⟩ 10 = (⟨some 0, some 0.042⟩, none) ∧
    (check_alert_eth_btc (some (mkWindow 0.045 0.038 0.041 0.0405 0.041)) none
        ⟨some 0, some 0.042⟩ 200).1.last_price =
      some ((pyIdx (mkWindow 0.045 0.038 0.041 0.0405 0.041) 1).close) := by
  constructor
  · exact (claim_C6_state_refresh_amended
        (some (mkWindow 0.045 0.038 0.041 0.0405 0.041)) none ⟨some 0, some 0.042⟩ 10).1
      (by rw [check_cooldown]; norm_num [ALERT_ETH_BTC_COOLDOWN])
  · exact ((claim_C6_state_refresh_amended
        (some (mkWindow 0.045 0.038 0.041 0.0405 0.041)) none ⟨some 0, some 0.042⟩ 200).2
      (mkWindow 0.045 0.038 0.041 0.0405 0.041) rfl
      (by rw [check_cooldown]; norm_num [ALERT_ETH_BTC_COOLDOWN])
      (by rw [mkWindow_length]; norm_num)).1

/-- Claim C7 counterexample: the gold detector's 7-day high is computed
over a window that INCLUDES the current bar (it equals the current
close, and the maximum over the window without the last bar is strictly
smaller), and feeding a monotonically increasing 169-bar series as two
consecutive 168-bar evaluations with elapsed cooldown fires at BOTH
evaluations, not exactly once. -/
theorem claim_C7_counterexample :
    high_7d (monoWindow 0) = (pyIdx (monoWindow 0) 1).close ∧
    listMax ((prices_7d (monoWindow 0)).dropLast) < high_7d (monoWindow 0) ∧
    (run_gold ⟨none, none⟩ [⟨0, monoWindow 0, none⟩, ⟨10000, monoWindow 1, none⟩]).2 =
      [.gold, .gold] := by
  have hc0 : (pyIdx (monoWindow 0) 1).close = 100 + (167 : ℚ) / 10 := by
    rw [monoWindow_pyIdx 0 1 le_rfl (by norm_num)]
    norm_num
  have hc1 : (pyIdx (monoWindow 1) 1).close = 100 + (168 : ℚ) / 10 := by
    rw [monoWindow_pyIdx 1 1 le_rfl (by norm_num)]
    norm_num
  have hb0 : (pyIdx (monoWindow 0) 2).close = 100 + (166 : ℚ) / 10 := by
    rw [monoWindow_pyIdx 0 2 (by norm_num) (by norm_num)]
    norm_num
  have hmax0 : ∀ c ∈ prices_7d (monoWindow 0), c ≤ (pyIdx (monoWindow 0) 1).close := by
    intro c hc
    have := monoWindow_mem_le 0 c hc
    rw [hc0]
    push_cast at this
    linarith
  have hmax1 : ∀ c ∈ prices_7d (monoWindow 1), c ≤ (pyIdx (monoWindow 1) 1).close := by
    intro c hc
    have := monoWindow_mem_le 1 c hc
    rw [hc1]
    push_cast at this
    linarith
  have hhigh : high_7d (monoWindow 0) = (pyIdx (monoWindow 0) 1).close := by
    rw [high_7d]
    exact listMax_eq_of_mem_of_le
      (pyIdx_one_mem_prices _ (by rw [monoWindow_length])) hmax0
  refine ⟨hhigh, ?_, ?_⟩
  · have hdrop : (prices_7d (monoWindow 0)).dropLast =
        (List.range 167).map fun i => 100 + ((0 + i : ℕ) : ℚ) / 10 := by
      rw [monoWindow_prices, show (168 : ℕ) = 167 + 1 from rfl, List.range_succ,
        List.map_append]
      simp only [List.map_cons, List.map_nil]
      exact List.dropLast_concat
    have hmaxd : listMax ((prices_7d (monoWindow 0)).dropLast) = 100 + (166 : ℚ) / 10 := by
      rw [hdrop]
      apply listMax_eq_of_mem_of_le
      · apply List.mem_map.mpr
        exact ⟨166, List.mem_range.mpr (by norm_num), by norm_num⟩
      · intro c hc
        rcases List.mem_map.mp hc with ⟨i, hi, rfl⟩
        have hi166 : (i : ℚ) ≤ 166 := by
          exact_mod_cast Nat.lt_succ_iff.mp (List.mem_range.mp hi)
        push_cast
        linarith
    rw [hmaxd, hhigh, hc0]
    norm_num
  · have hp1 : pyOrElse ((⟨none, none⟩ : CrossState).last_price)
        ((pyIdx (monoWindow 0) 2).close) < (pyIdx (monoWindow 0) 1).close := by
      show pyOrElse none ((pyIdx (monoWindow 0) 2).close) < (pyIdx (monoWindow 0) 1).close
      simp only [pyOrElse]
      rw [hc0, hb0]
      norm_num
    have hp2 : pyOrElse ((⟨some (0 : ℚ), some ((pyIdx (monoWindow 0) 1).close)⟩ :
          CrossState).last_price) ((pyIdx (monoWindow 1) 2).close) <
        (pyIdx (monoWindow 1) 1).close := by
      show pyOrElse (some ((pyIdx (monoWindow 0) 1).close))
        ((pyIdx (monoWindow 1) 2).close) < (pyIdx (monoWindow 1) 1).close
      simp only [pyOrElse]
      rw [hc0, hc1]
      norm_num
    have hstep1 := gold_fire (monoWindow 0) ⟨none, none⟩ 0 rfl
      (by rw [monoWindow_length]; norm_num)
      (by rw [monoWindow_volume]; norm_num)
      (Or.inl (broke_high_true _ (monoWindow 0) (by rw [monoWindow_length]) hmax0 hp1))
    have hstep2 := gold_fire (monoWindow 1) ⟨some 0, some ((pyIdx (monoWindow 0) 1).close)⟩
      10000
      (by rw [check_cooldown]; norm_num [ALERT_GOLD_COOLDOWN])
      (by rw [monoWindow_length]; norm_num)
      (by rw [monoWindow_volume]; norm_num)
      (Or.inl (broke_high_true _ (monoWindow 1) (by rw [monoWindow_length]) hmax1 hp2))
    simp only [run_gold, hstep1, hstep2]
    rfl

/-- Claim C7 (amended): the rolling 7-day extremum is taken over the
last 168 bars INCLUDING the current bar; consequently the break test is
equivalent to "the current close is at least every close of the window
and strictly above the previous observation", and two consecutive
evaluations of a rising series (each close a window maximum above the
previous observation, cooldown elapsed, volume adequate) both fire -
the detector is not limited to a single firing per new high. -/
theorem claim_C7_extremum_amended (prev : ℚ) (w : List Bar) (h : 168 ≤ w.length) :
    ((pyIdx w 1).close ∈ prices_7d w) ∧
    (broke_high_7d prev w ((pyIdx w 1).close) = true ↔
      ((∀ c ∈ prices_7d w, c ≤ (pyIdx w 1).close) ∧ prev < (pyIdx w 1).close)) ∧
    (∀ (now1 now2 : ℚ) (w2 : List Bar),
      168 ≤ w2.length →
      (∀ c ∈ prices_7d w, c ≤ (pyIdx w 1).close) →
      (pyIdx w 2).close < (pyIdx w 1).close →
      ¬ hourly_volume_vs_avg w < -50 →
      (∀ c ∈ prices_7d w2, c ≤ (pyIdx w2 1).close) →
      (pyIdx w 1).close < (pyIdx w2 1).close →
      (pyIdx w 1).close ≠ 0 →
      ¬ hourly_volume_vs_avg w2 < -50 →
      check_cooldown (some now1) ALERT_GOLD_COOLDOWN now2 = true →
      (run_gold ⟨none, none⟩ [⟨now1, w, none⟩, ⟨now2, w2, none⟩]).2 = [.gold, .gold]) := by
  refine ⟨pyIdx_one_mem_prices w h, ?_, ?_⟩
  · constructor
    · intro hb
      have hb2 := of_decide_eq_true hb
      obtain ⟨hp, hge⟩ := hb2
      have hcurhigh : (pyIdx w 1).close ≥ high_7d w := hge
      constructor
      · intro c hc
        exact le_trans (le_listMax hc) hcurhigh
      · exact lt_of_lt_of_le hp hcurhigh
    · rintro ⟨hall, hprev⟩
      exact broke_high_true prev w h hall hprev
  · rintro now1 now2 w2 hlen2 hmax1 hprev1 hvol1 hmax2 hrise hne hvol2 hcd
    have hp1 : pyOrElse ((⟨none, none⟩ : CrossState).last_price) ((pyIdx w 2).close) <
        (pyIdx w 1).close := by
      show pyOrElse none ((pyIdx w 2).close) < (pyIdx w 1).close
      simp only [pyOrElse]
      exact hprev1
    have hp2 : pyOrElse ((⟨some now1, some ((pyIdx w 1).close)⟩ :
          CrossState).last_price) ((pyIdx w2 2).close) < (pyIdx w2 1).close := by
      show pyOrElse (some ((pyIdx w 1).close)) ((pyIdx w2 2).close) < (pyIdx w2 1).close
      simp only [pyOrElse]
      rw [if_neg hne]
      exact hrise
    have hstep1 := gold_fire w ⟨none, none⟩ now1 rfl (by omega) hvol1
      (Or.inl (broke_high_true _ w h hmax1 hp1))
    have hstep2 := gold_fire w2 ⟨some now1, some ((pyIdx w 1).close)⟩ now2
      hcd (by omega) hvol2
      (Or.inl (broke_high_true _ w2 hlen2 hmax2 hp2))
    simp only [run_gold, hstep1, hstep2]
    rfl

/-- Claim C7 witness: the amended theorem applied to the two windows of
the monotone 169-bar series - both evaluations fire. -/
theorem claim_C7_witness :
    (run_gold ⟨none, none⟩ [⟨0, monoWindow 0, none⟩, ⟨20000, monoWindow 1, none⟩]).2 =
      [.gold, .gold] := by
  have hc0 : (pyIdx (monoWindow 0) 1).close = 100 + (167 : ℚ) / 10 := by
    rw [monoWindow_pyIdx 0 1 le_rfl (by norm_num)]
    norm_num
  have hc1 : (pyIdx (monoWindow 1) 1).close = 100 + (168 : ℚ) / 10 := by
    rw [monoWindow_pyIdx 1 1 le_rfl (by norm_num)]
    norm_num
  have hb0 : (pyIdx (monoWindow 0) 2).close = 100 + (166 : ℚ) / 10 := by
    rw [monoWindow_pyIdx 0 2 (by norm_num) (by norm_num)]
    norm_num
  refine (claim_C7_extremum_amended 0 (monoWindow 0) (by rw [monoWindow_length])).2.2
    0 20000 (monoWindow 1) (by rw [monoWindow_length]) ?_ ?_ ?_ ?_ ?_ ?_ ?_ ?_
  · intro c hc
    have := monoWindow_mem_le 0 c hc
    rw [hc0]
    push_cast at this
    linarith
  · rw [hc0, hb0]
    norm_num
  · rw [monoWindow_volume]
    norm_num
  · intro c hc
    have := monoWindow_mem_le 1 c hc
    rw [hc1]
    push_cast at this
    linarith
  · rw [hc0, hc1]
    norm_num
  · rw [hc0]
    norm_num
  · rw [monoWindow_volume]
    norm_num
  · rw [check_cooldown]
    norm_num [ALERT_GOLD_COOLDOWN]

/-- Claim C8 counterexample: on the spec's six-bar series with current
price 101.0, the spike change computed by the code is 900/1001 percent
(about +0.899), not approximately +0.996 - it is off by more than 0.09,
because price_ago is the close five bars back, namely 100.1, not 100. -/
theorem claim_C8_counterexample :
    spike_change spikeBars 101 = 900 / 1001 ∧
    ¬ |spike_change spikeBars 101 - 0.996| ≤ 0.05 := by
  have h : spike_change spikeBars 101 = 900 / 1001 := by
    rw [spike_change, spikeBars]
    norm_num [pyIdx, ALERT_SPIKE_PERIOD]
  refine ⟨h, ?_⟩
  rw [h]
  intro hle
  rw [abs_of_neg (by norm_num)] at hle
  norm_num at hle

/-- Claim C8 (amended): on the six-bar close series 100, 100.1, 100.2,
100.3, 100.4, 101.0 with current price 101.0, the spike detector
(period 5, threshold 0.6 percent) fires with direction up and computed
change 900/1001 percent, approximately +0.899. -/
theorem claim_C8_spike_scenario_amended :
    check_alert_spike spikeBars 101 none 0 = (some 0, some (.spike .up (900 / 1001))) := by
  have h : spike_change spikeBars 101 = 900 / 1001 := by
    rw [spike_change, spikeBars]
    norm_num [pyIdx, ALERT_SPIKE_PERIOD]
  have habs : |(900 / 1001 : ℚ)| = 900 / 1001 := abs_of_pos (by norm_num)
  have hlen : spikeBars.length = 6 := rfl
  rw [check_alert_spike]
  norm_num [check_cooldown, h, habs, hlen, ALERT_SPIKE_PERIOD, ALERT_SPIKE_THRESHOLD,
    ALERT_ENABLED, ALERT_SPIKE_ENABLED]

/-- Claim C4: the shared cooldown gate passes exactly when the elapsed
time since the last firing reaches the configured cooldown (and the
dominance detector's inline gate is unblocked under exactly the same
condition); consequently two qualifying spike conditions separated by
less than the cooldown produce exactly one event, and two separated by
at least the cooldown produce two. -/
theorem claim_C4_cooldown_enforcement :
    (∀ t cooldown_minutes now : ℚ,
      check_cooldown (some t) cooldown_minutes now = true ↔ now - t ≥ cooldown_minutes) ∧
    (∀ t now : ℚ,
      dom_cooldown_blocked (some t) now = false ↔ now - t ≥ ALERT_BTC_DOM_COOLDOWN) ∧
    (∀ t1 t2 : ℚ,
      (t2 - t1 < ALERT_SPIKE_COOLDOWN →
        (run_spike none [⟨t1, qcandles, 101⟩, ⟨t2, qcandles, 101⟩]).2.length = 1) ∧
      (t2 - t1 ≥ ALERT_SPIKE_COOLDOWN →
        (run_spike none [⟨t1, qcandles, 101⟩, ⟨t2, qcandles, 101⟩]).2.length = 2)) := by
  have hgate : ∀ t c now : ℚ, check_cooldown (some t) c now = true ↔ now - t ≥ c := by
    intro t c now
    simp [check_cooldown]
  have hfire : ∀ (last : Option ℚ) (now : ℚ),
      check_cooldown last ALERT_SPIKE_COOLDOWN now = true →
      check_alert_spike qcandles 101 last now = (some now, some (.spike .up 1)) := by
    intro last now h
    simp only [check_alert_spike, ALERT_ENABLED, ALERT_SPIKE_ENABLED, Bool.and_self,
      Bool.not_true, Bool.false_eq_true, if_false, h]
    norm_num [qcandles, spike_change, pyIdx, ALERT_SPIKE_PERIOD, ALERT_SPIKE_THRESHOLD]
  refine ⟨hgate, ?_, ?_⟩
  · intro t now
    simp [dom_cooldown_blocked, not_lt]
  · intro t1 t2
    have h1 : check_alert_spike qcandles 101 none t1 = (some t1, some (.spike .up 1)) :=
      hfire none t1 rfl
    constructor
    · intro hlt
      have h2 : check_cooldown (some t1) ALERT_SPIKE_COOLDOWN t2 = false := by
        rw [Bool.eq_false_iff]
        intro hc
        exact absurd ((hgate t1 _ t2).mp hc) (not_le.mpr hlt)
      have h2b : check_alert_spike qcandles 101 (some t1) t2 = (some t1, none) := by
        rw [check_alert_spike]
        simp [h2, ALERT_ENABLED, ALERT_SPIKE_ENABLED]
      simp only [run_spike, h1, h2b]
      simp
    · intro hge
      have h2 := hfire (some t1) t2 ((hgate t1 _ t2).mpr hge)
      simp only [run_spike, h1, h2]
      simp

/-- Claim C9: with K-1 consecutive same-direction blocks followed by one
opposite-direction block the momentum detector does not trigger (in
either orientation); with all K blocks moving in one direction and every
block magnitude at least min_change it triggers; and at the shipped
configuration a triggering window with an elapsed cooldown and enough
bars makes check_alert_momentum emit an event. -/
theorem claim_C9_momentum_strictness (candles : List Bar) (btc_price : ℚ)
    (P K : ℕ) (min_change : ℚ) :
    (2 ≤ K →
      (∀ i, i < K → 1 ≤ i → 0 < momentum_period_change candles btc_price P i) →
      momentum_period_change candles btc_price P 0 < 0 →
      momentum_should_trigger candles btc_price P K min_change .both = false) ∧
    (2 ≤ K →
      (∀ i, i < K → 1 ≤ i → momentum_period_change candles btc_price P i < 0) →
      0 < momentum_period_change candles btc_price P 0 →
      momentum_should_trigger candles btc_price P K min_change .both = false) ∧
    (((∀ i, i < K → 0 < momentum_period_change candles btc_price P i) ∨
        (∀ i, i < K → momentum_period_change candles btc_price P i < 0)) →
      (∀ i, i < K → min_change ≤ |momentum_period_change candles btc_price P i|) →
      momentum_should_trigger candles btc_price P K min_change .both = true) ∧
    (∀ last : Option ℚ, ∀ now : ℚ,
      check_cooldown last ALERT_MOMENTUM_COOLDOWN now = true →
      ALERT_MOMENTUM_PERIOD * ALERT_MOMENTUM_COUNT ≤ candles.length →
      momentum_should_trigger candles btc_price ALERT_MOMENTUM_PERIOD ALERT_MOMENTUM_COUNT
        ALERT_MOMENTUM_MIN_CHANGE .both = true →
      (check_alert_momentum candles btc_price last now).2.isSome = true) := by
  have hpos : momentum_all_positive candles btc_price P K = true ↔
      ∀ i, i < K → 0 < momentum_period_change candles btc_price P i := by
    simp [momentum_all_positive, List.all_eq_true, List.mem_range]
  have hneg : momentum_all_negative candles btc_price P K = true ↔
      ∀ i, i < K → momentum_period_change candles btc_price P i < 0 := by
    simp [momentum_all_negative, List.all_eq_true, List.mem_range]
  have hmeet : momentum_all_meet candles btc_price P K min_change = true ↔
      ∀ i, i < K → min_change ≤ |momentum_period_change candles btc_price P i| := by
    simp [momentum_all_meet, List.all_eq_true, List.mem_range]
  refine ⟨?_, ?_, ?_, ?_⟩
  · intro hK hrest h0
    simp only [momentum_should_trigger, Bool.or_eq_false_iff, Bool.and_eq_false_iff]
    constructor
    · left
      rw [Bool.eq_false_iff]
      intro h
      exact absurd (hpos.mp h 0 (by omega)) (by linarith)
    · left
      rw [Bool.eq_false_iff]
      intro h
      exact absurd (hneg.mp h 1 (by omega)) (by linarith [hrest 1 (by omega) le_rfl])
  · intro hK hrest h0
    simp only [momentum_should_trigger, Bool.or_eq_false_iff, Bool.and_eq_false_iff]
    constructor
    · left
      rw [Bool.eq_false_iff]
      intro h
      exact absurd (hpos.mp h 1 (by omega)) (by linarith [hrest 1 (by omega) le_rfl])
    · left
      rw [Bool.eq_false_iff]
      intro h
      exact absurd (hneg.mp h 0 (by omega)) (by linarith)
  · intro hdir hm
    simp only [momentum_should_trigger, Bool.or_eq_true, Bool.and_eq_true]
    rcases hdir with hd | hd
    · exact Or.inl ⟨hpos.mpr hd, hmeet.mpr hm⟩
    · exact Or.inr ⟨hneg.mpr hd, hmeet.mpr hm⟩
  · intro last now hc hlen htrig
    simp [check_alert_momentum, hc, htrig, Nat.not_lt.mpr hlen, ALERT_ENABLED,
      ALERT_MOMENTUM_ENABLED]

/-- Claim C4 witness: with the spike cooldown of 120 minutes, qualifying
conditions at minutes 0 and 60 yield one event, at minutes 0 and 300 two
events. -/
theorem claim_C4_witness :
    (run_spike none [⟨0, qcandles, 101⟩, ⟨60, qcandles, 101⟩]).2.length = 1 ∧
    (run_spike none [⟨0, qcandles, 101⟩, ⟨300, qcandles, 101⟩]).2.length = 2 :=
  ⟨(claim_C4_cooldown_enforcement.2.2 0 60).1 (by norm_num [ALERT_SPIKE_COOLDOWN]),
   (claim_C4_cooldown_enforcement.2.2 0 300).2 (by norm_num [ALERT_SPIKE_COOLDOWN])⟩

/-- Claim C9 witness: at K = 2 blocks of P = 1 bar with min_change 1, an
up block followed by a down block does not trigger, while two qualifying
up blocks do. -/
theorem claim_C9_witness :
    momentum_should_trigger momentumBars 100 1 2 1 .both = false ∧
    momentum_should_trigger momentumBars 102.01 1 2 1 .both = true := by
  constructor
  · refine (claim_C9_momentum_strictness momentumBars 100 1 2 1).1 le_rfl ?_ ?_
    · intro i hi h1
      interval_cases i
      · norm_num [momentum_period_change, momentumBars, pyIdx]
    · norm_num [momentum_period_change, momentumBars, pyIdx]
  · refine (claim_C9_momentum_strictness momentumBars 102.01 1 2 1).2.2.1 (Or.inl ?_) ?_
    · intro i hi
      interval_cases i <;> norm_num [momentum_period_change, momentumBars, pyIdx]
    · intro i hi
      interval_cases i
      · have h : momentum_period_change momentumBars 102.01 1 0 = 1 := by
          norm_num [momentum_period_change, momentumBars, pyIdx]
        rw [h]
        norm_num
      · have h : momentum_period_change momentumBars 102.01 1 1 = 1 := by
          norm_num [momentum_period_change, momentumBars, pyIdx]
        rw [h]
        norm_num

end CryptoBot
